import Mathlib

/-!
# Tableturf grinder: the report generator of `Joystick.c`

A shallow embedding of `GetNextReport`, `HID_Task` and
`EVENT_USB_Device_ControlRequest` from `src/Joystick.c`, followed by the
properties proved about them.

Conventions of the embedding:

* the C `static` variables of `GetNextReport` become the record `Statics`,
  passed in and returned explicitly;
* `uint8_t` / `uint16_t` values are natural numbers, with an explicit
  `% 256` / `% 65536` wherever the C code stores the result of an arithmetic
  or bitwise operation into such a variable;
* the endpoint hardware is a list of `HwEvent`s appended to by every call of
  a LUFA endpoint routine that has an effect, and the values the hardware
  hands back (flags, payload bytes, stale stack contents) are explicit inputs;
* constants that come from headers (`Joystick.h`, LUFA) are parameters.
-/

namespace Joystick

/-! ## Data model -/

/-- Modelled from the spec: the declaration of `USB_JoystickReport_Input_t`
lives in `Joystick.h`; the fields are the ones of the report byte layout
`[buttons: 2 bytes][hat: 1 byte][LX][LY][RX][RY]`, which are also exactly the
fields `GetNextReport` assigns.  `Button` is a `uint16_t`, the others are
`uint8_t`. -/
structure USB_JoystickReport_Input_t where
  Button : Nat
  HAT : Nat
  LX : Nat
  LY : Nat
  RX : Nat
  RY : Nat
deriving DecidableEq

/-- Constants of `Joystick.h` used by `GetNextReport`: the button masks of the
enum `JoystickButtons_t` and the two hat values.  They are parameters of the
embedding. -/
structure JoystickConsts where
  SWITCH_A : Nat
  SWITCH_B : Nat
  SWITCH_L : Nat
  SWITCH_R : Nat
  HAT_CENTER : Nat
  HAT_BOTTOM : Nat
deriving DecidableEq

/-- Modelled from the spec: what the spec says of the header constants.  The
buttons are "a bitmask over a fixed set of named buttons" held in two bytes
(each mask is nonzero, fits 16 bits, and no two masks share a bit), and the hat
is "one of 9 discrete directions, represented as a small enum" held in one
byte (the two values fit 8 bits and differ). -/
def JoystickConsts.WellFormed (c : JoystickConsts) : Prop :=
  (c.SWITCH_A < 65536 ∧ c.SWITCH_B < 65536 ∧ c.SWITCH_L < 65536 ∧ c.SWITCH_R < 65536) ∧
  (c.SWITCH_A ≠ 0 ∧ c.SWITCH_B ≠ 0 ∧ c.SWITCH_L ≠ 0 ∧ c.SWITCH_R ≠ 0) ∧
  (c.SWITCH_A &&& c.SWITCH_B = 0 ∧ c.SWITCH_A &&& c.SWITCH_L = 0 ∧
   c.SWITCH_A &&& c.SWITCH_R = 0 ∧ c.SWITCH_B &&& c.SWITCH_L = 0 ∧
   c.SWITCH_B &&& c.SWITCH_R = 0 ∧ c.SWITCH_L &&& c.SWITCH_R = 0) ∧
  (c.HAT_CENTER < 256 ∧ c.HAT_BOTTOM < 256 ∧ c.HAT_CENTER ≠ c.HAT_BOTTOM)

instance (c : JoystickConsts) : Decidable c.WellFormed := by
  unfold JoystickConsts.WellFormed; infer_instance

/-- The values the Pokken-pad header gives the constants
(`SWITCH_A = 0x04`, `SWITCH_B = 0x02`, `SWITCH_L = 0x10`, `SWITCH_R = 0x20`,
`HAT_CENTER = 0x08`, `HAT_BOTTOM = 0x04`); used as the concrete instance. -/
def pokken : JoystickConsts :=
  { SWITCH_A := 4, SWITCH_B := 2, SWITCH_L := 16, SWITCH_R := 32,
    HAT_CENTER := 8, HAT_BOTTOM := 4 }

/-- The loop length of the source, `#define LOOP_LENGTH 30`. -/
def LOOP_LENGTH : Nat := 30

/-- First enumerator of `enum state_t { SYNC_CONTROLLER, LOOP }`. -/
def SYNC_CONTROLLER : Nat := 0

/-- Second enumerator of `enum state_t { SYNC_CONTROLLER, LOOP }`. -/
def LOOP : Nat := 1

/-- The `static` variables of `GetNextReport`:
`last_report`, `uint16_t i`, `uint8_t j`, `uint8_t state`. -/
structure Statics where
  last_report : USB_JoystickReport_Input_t
  i : Nat
  j : Nat
  state : Nat
deriving DecidableEq

/-- The all-zero report (what `memset (.., 0, ..)` leaves, and what a
zero-initialised `static` holds). -/
def zeroReport : USB_JoystickReport_Input_t :=
  { Button := 0, HAT := 0, LX := 0, LY := 0, RX := 0, RY := 0 }

/-- The statics before the first call: C zero-initialises them
(`i = 0`, `j = 0`, `state = 0 = SYNC_CONTROLLER`, `last_report` all zero). -/
def fresh : Statics :=
  { last_report := zeroReport, i := 0, j := 0, state := SYNC_CONTROLLER }

/-! ## `GetNextReport` -/

/-- The call `memset(ReportData, 0, sizeof(USB_JoystickReport_Input_t))`: whatever
the buffer held, it holds zero bytes afterwards. -/
def memsetZero (_ReportData : USB_JoystickReport_Input_t) : USB_JoystickReport_Input_t :=
  zeroReport

/-- Lines 177-185 of `GetNextReport`: `memset` the caller's buffer to zero, then
set the four axes to 128 and the hat to `HAT_CENTER`. -/
def clearReport (c : JoystickConsts) (ReportData : USB_JoystickReport_Input_t) :
    USB_JoystickReport_Input_t :=
  let ReportData := memsetZero ReportData
  let ReportData := { ReportData with LX := 128 }
  let ReportData := { ReportData with LY := 128 }
  let ReportData := { ReportData with RX := 128 }
  let ReportData := { ReportData with RY := 128 }
  { ReportData with HAT := c.HAT_CENTER % 256 }

/-- The statement `ReportData->Button |= m` on the `uint16_t` field. -/
def orButton (ReportData : USB_JoystickReport_Input_t) (m : Nat) :
    USB_JoystickReport_Input_t :=
  { ReportData with Button := (ReportData.Button ||| m) % 65536 }

/-- Lines 194-224 of `GetNextReport`: the `switch (state)` statement, with the loop
length `N` (`LOOP_LENGTH` in the source) as a parameter.  It takes the
current `state` and `i` and the report built so far and returns the report,
the new `state` and the new `i`.  The comparisons `i == (N) - k` are made in
the integers, as C does after promotion (all platforms agree when
`14 ≤ N`); `i++` wraps at 16 bits; a `state` value that matches no `case`
falls through the `switch` untouched. -/
def switchState (c : JoystickConsts) (N : Nat) (state i : Nat)
    (ReportData : USB_JoystickReport_Input_t) :
    USB_JoystickReport_Input_t × Nat × Nat :=
  if state = SYNC_CONTROLLER then
    if i = 20 ∨ i = 50 then
      (orButton ReportData (c.SWITCH_L ||| c.SWITCH_R), state, (i + 1) % 65536)
    else if i = 80 then
      (orButton ReportData c.SWITCH_A, state, (i + 1) % 65536)
    else if i = 100 then
      (ReportData, LOOP, 0)
    else
      (ReportData, state, (i + 1) % 65536)
  else if state = LOOP then
    if (i : Int) = (N : Int) - 1 then
      (ReportData, state, 0)
    else if (i : Int) = (N : Int) - 6 then
      (orButton ReportData c.SWITCH_B, state, (i + 1) % 65536)
    else if (i : Int) = (N : Int) - 14 ∨ (i : Int) = (N : Int) - 12 ∨
        (i : Int) = (N : Int) - 4 ∨ (i : Int) = (N : Int) - 2 then
      ({ ReportData with HAT := c.HAT_BOTTOM % 256 }, state, (i + 1) % 65536)
    else if i &&& 1 = 0 then
      (orButton ReportData c.SWITCH_A, state, (i + 1) % 65536)
    else
      (ReportData, state, (i + 1) % 65536)
  else
    (ReportData, state, i)

/-- The function `GetNextReport` (lines 166-228).  `s` holds the statics before the call,
`ReportData` the contents of the caller's buffer before the call; the result
is the contents of the buffer after the call and the statics after it.
`j--` is the 8-bit post-decrement: the test sees the old `j`, the stored
value is `j - 1` modulo 256 (overwritten by `j = 4` on the other path). -/
def GetNextReport (c : JoystickConsts) (N : Nat) (s : Statics)
    (ReportData : USB_JoystickReport_Input_t) :
    USB_JoystickReport_Input_t × Statics :=
  let ReportData := clearReport c ReportData
  let jOld := s.j
  let s := { s with j := (s.j + 255) % 256 }
  if jOld ≠ 0 then
    (s.last_report, s)
  else
    let s := { s with j := 4 }
    let r := switchState c N s.state s.i ReportData
    (r.1, { s with last_report := r.1, state := r.2.1, i := r.2.2 })

/-! ## Runs of `GetNextReport` -/

/-- The statics after the first `n` calls of `GetNextReport` from `s`, call
number `m` (counted from 0) being handed a buffer that holds `bufs m`. -/
def staticsAfter (c : JoystickConsts) (N : Nat) (bufs : Nat → USB_JoystickReport_Input_t)
    (s : Statics) : Nat → Statics
  | 0 => s
  | n + 1 => (GetNextReport c N (staticsAfter c N bufs s n) (bufs n)).2

/-- The report that call number `n` (counted from 0) of `GetNextReport` leaves
in the caller's buffer, in the run from `s`. -/
def reportOfCall (c : JoystickConsts) (N : Nat) (bufs : Nat → USB_JoystickReport_Input_t)
    (s : Statics) (n : Nat) : USB_JoystickReport_Input_t :=
  (GetNextReport c N (staticsAfter c N bufs s n) (bufs n)).1

/-- The phase and step of some statics, as the pair `(state, i)`. -/
def Statics.phaseStep (s : Statics) : Nat × Nat := (s.state, s.i)

/-- One automaton advance on `(state, i)`: the `switch` statement run on the
freshly cleared report. -/
def advance (c : JoystickConsts) (N : Nat) (p : Nat × Nat) : Nat × Nat :=
  (switchState c N p.1 p.2 (clearReport c zeroReport)).2

/-- The report an automaton advance produces at `(state, i)`. -/
def advanceReport (c : JoystickConsts) (N : Nat) (p : Nat × Nat) :
    USB_JoystickReport_Input_t :=
  (switchState c N p.1 p.2 (clearReport c zeroReport)).1

/-- The pair `(state, i)` after `k` automaton advances from `p`. -/
def advances (c : JoystickConsts) (N : Nat) (p : Nat × Nat) : Nat → Nat × Nat
  | 0 => p
  | k + 1 => advance c N (advances c N p k)

/-- The neutral report: no button, hat centred, axes at 128. -/
def neutral (c : JoystickConsts) : USB_JoystickReport_Input_t :=
  { Button := 0, HAT := c.HAT_CENTER, LX := 128, LY := 128, RX := 128, RY := 128 }

/-- The buffer contents used in concrete instances: every caller's buffer holds
zero bytes before the call. -/
def zeroBufs : Nat → USB_JoystickReport_Input_t := fun _ => zeroReport

/-! ## Transport: `HID_Task` and `EVENT_USB_Device_ControlRequest` -/

/-- Constants of the LUFA headers and of `Descriptors.h` used by the transport
code; parameters of the embedding. -/
structure UsbConsts where
  DEVICE_STATE_Configured : Nat
  HID_REQ_GetReport : Nat
  HID_REQ_SetReport : Nat
  REQDIR_DEVICETOHOST : Nat
  REQDIR_HOSTTODEVICE : Nat
  REQTYPE_CLASS : Nat
  REQREC_INTERFACE : Nat
  JOYSTICK_OUT_EPADDR : Nat
  JOYSTICK_IN_EPADDR : Nat
deriving DecidableEq

/-- The values LUFA gives the constants (`DEVICE_STATE_Configured = 4`,
`HID_REQ_GetReport = 0x01`, `HID_REQ_SetReport = 0x09`,
`REQDIR_DEVICETOHOST = 0x80`, `REQDIR_HOSTTODEVICE = 0`, `REQTYPE_CLASS = 0x20`,
`REQREC_INTERFACE = 1`) and the endpoint addresses of the Pokken-pad
descriptors (`OUT = 0x02`, `IN = 0x81`); used as the concrete instance. -/
def lufa : UsbConsts :=
  { DEVICE_STATE_Configured := 4, HID_REQ_GetReport := 1, HID_REQ_SetReport := 9,
    REQDIR_DEVICETOHOST := 128, REQDIR_HOSTTODEVICE := 0, REQTYPE_CLASS := 32,
    REQREC_INTERFACE := 1, JOYSTICK_OUT_EPADDR := 2, JOYSTICK_IN_EPADDR := 129 }

/-- The calls into the endpoint hardware that the transport code makes, in the
order made; each constructor is the LUFA routine of the same name, with the
data it is given (writes) or hands back (reads). -/
inductive HwEvent where
  | SelectEndpoint (addr : Nat)
  | Read_Stream_LE (data : List Nat)
  | Write_Stream_LE (report : USB_JoystickReport_Input_t)
  | ClearOUT
  | ClearIN
  | ClearSETUP
  | Write_Control_Stream_LE (report : USB_JoystickReport_Input_t)
  | Read_Control_Stream_LE (data : List Nat)
deriving DecidableEq

/-- What one run of `HID_Task` reads from its environment: the global
`USB_DeviceState`, the results of `Endpoint_IsOUTReceived`,
`Endpoint_IsReadWriteAllowed` and `Endpoint_IsINReady`, the bytes
`Endpoint_Read_Stream_LE` would deliver, and the stale contents of the
uninitialised local `JoystickInputData`. -/
structure HidInputs where
  USB_DeviceState : Nat
  IsOUTReceived : Bool
  IsReadWriteAllowed : Bool
  OutData : List Nat
  IsINReady : Bool
  JoystickInputData : USB_JoystickReport_Input_t
deriving DecidableEq

/-- The function `HID_Task` (lines 120-161): returns the statics of `GetNextReport` after the
task and the hardware calls made. -/
def HID_Task (u : UsbConsts) (c : JoystickConsts) (N : Nat) (s : Statics) (x : HidInputs) :
    Statics × List HwEvent :=
  if x.USB_DeviceState ≠ u.DEVICE_STATE_Configured then
    (s, [])
  else
    let hw := [HwEvent.SelectEndpoint u.JOYSTICK_OUT_EPADDR]
    let hw :=
      if x.IsOUTReceived then
        let hw :=
          if x.IsReadWriteAllowed then hw ++ [HwEvent.Read_Stream_LE x.OutData] else hw
        hw ++ [HwEvent.ClearOUT]
      else hw
    let hw := hw ++ [HwEvent.SelectEndpoint u.JOYSTICK_IN_EPADDR]
    if x.IsINReady then
      let r := GetNextReport c N s x.JoystickInputData
      (r.2, hw ++ [HwEvent.Write_Stream_LE r.1, HwEvent.ClearIN])
    else
      (s, hw)

/-- The fields of `USB_ControlRequest` the handler looks at. -/
structure USB_Request_Header_t where
  bmRequestType : Nat
  bRequest : Nat
deriving DecidableEq

/-- What one run of the control-request handler reads from its environment
besides the request: the stale contents of the uninitialised local
`JoystickInputData` and the bytes `Endpoint_Read_Control_Stream_LE` would
deliver. -/
structure CtlInputs where
  JoystickInputData : USB_JoystickReport_Input_t
  OutData : List Nat
deriving DecidableEq

/-- The function `EVENT_USB_Device_ControlRequest` (lines 81-117): returns the statics of
`GetNextReport` after the handler and the hardware calls made.  The
`switch` on `bRequest` has the two cases of the source and no default. -/
def EVENT_USB_Device_ControlRequest (u : UsbConsts) (c : JoystickConsts) (N : Nat)
    (s : Statics) (USB_ControlRequest : USB_Request_Header_t) (x : CtlInputs) :
    Statics × List HwEvent :=
  if USB_ControlRequest.bRequest = u.HID_REQ_GetReport then
    if USB_ControlRequest.bmRequestType =
        (u.REQDIR_DEVICETOHOST ||| u.REQTYPE_CLASS ||| u.REQREC_INTERFACE) then
      let r := GetNextReport c N s x.JoystickInputData
      (r.2, [HwEvent.ClearSETUP, HwEvent.Write_Control_Stream_LE r.1, HwEvent.ClearOUT])
    else
      (s, [])
  else if USB_ControlRequest.bRequest = u.HID_REQ_SetReport then
    if USB_ControlRequest.bmRequestType =
        (u.REQDIR_HOSTTODEVICE ||| u.REQTYPE_CLASS ||| u.REQREC_INTERFACE) then
      (s, [HwEvent.ClearSETUP, HwEvent.Read_Control_Stream_LE x.OutData, HwEvent.ClearIN])
    else
      (s, [])
  else
    (s, [])

/-- The statics and the hardware calls after running `HID_Task` once per element
of the input list, in order (the main loop of `main`, with `USB_USBTask`
left out: it does not touch the statics). -/
def runHID (u : UsbConsts) (c : JoystickConsts) (N : Nat) (s : Statics) :
    List HidInputs → Statics × List HwEvent
  | [] => (s, [])
  | x :: xs =>
    let r := HID_Task u c N s x
    let r2 := runHID u c N r.1 xs
    (r2.1, r.2 ++ r2.2)

/-- The IN reports written to the interrupt endpoint, in order. -/
def inReports : List HwEvent → List USB_JoystickReport_Input_t
  | [] => []
  | HwEvent.Write_Stream_LE r :: hw => r :: inReports hw
  | _ :: hw => inReports hw

/-- The reports written to the control pipe, in order. -/
def controlReports : List HwEvent → List USB_JoystickReport_Input_t
  | [] => []
  | HwEvent.Write_Control_Stream_LE r :: hw => r :: controlReports hw
  | _ :: hw => controlReports hw

/-- Two inputs of `HID_Task` agree on the device state and on the IN-ready flag. -/
def HidInputs.agree (x y : HidInputs) : Prop :=
  x.USB_DeviceState = y.USB_DeviceState ∧ x.IsINReady = y.IsINReady

/-- A first input sequence for the instance of C7: configured throughout, an OUT
packet pending on the first tick. -/
def c7RunA : List HidInputs :=
  [ { USB_DeviceState := 4, IsOUTReceived := true, IsReadWriteAllowed := true,
      OutData := [1, 2, 3, 4, 5, 6, 7, 8], IsINReady := true, JoystickInputData := zeroReport },
    { USB_DeviceState := 4, IsOUTReceived := false, IsReadWriteAllowed := false,
      OutData := [], IsINReady := false, JoystickInputData := zeroReport } ]

/-- A second input sequence for the instance of C7: the same device state and
IN-ready flags, different OUT traffic and stale buffer contents. -/
def c7RunB : List HidInputs :=
  [ { USB_DeviceState := 4, IsOUTReceived := false, IsReadWriteAllowed := false,
      OutData := [], IsINReady := true, JoystickInputData := neutral pokken },
    { USB_DeviceState := 4, IsOUTReceived := true, IsReadWriteAllowed := false,
      OutData := [255], IsINReady := false, JoystickInputData := zeroReport } ]

/-- An input of `HID_Task` for the concrete instances: device in the state
`st`, no OUT traffic, IN endpoint ready or not. -/
def hidInput (st : Nat) (inReady : Bool) : HidInputs :=
  { USB_DeviceState := st, IsOUTReceived := false, IsReadWriteAllowed := false,
    OutData := [], IsINReady := inReady, JoystickInputData := zeroReport }

/-- Environment of the control-request handler for the concrete instances. -/
def ctlInput : CtlInputs := { JoystickInputData := zeroReport, OutData := [1, 2] }

/-! ## The closed form of the output sequence, as the specification words it -/

/-- The report `R k` of the closed form: for `k ≤ 100` the SYNC report for step `k`
(L|R at 20 and 50, A at 80, neutral otherwise), for `k ≥ 101` the LOOP report
for step `(k - 101) mod 30` (neutral at 29, B at 24, hat down at 16, 18, 26,
28, A at the other even steps, neutral at the other odd steps). -/
def closedFormReport (c : JoystickConsts) (k : Nat) : USB_JoystickReport_Input_t :=
  if k ≤ 100 then
    if k = 20 ∨ k = 50 then { neutral c with Button := c.SWITCH_L ||| c.SWITCH_R }
    else if k = 80 then { neutral c with Button := c.SWITCH_A }
    else neutral c
  else
    if (k - 101) % 30 = 29 then neutral c
    else if (k - 101) % 30 = 24 then { neutral c with Button := c.SWITCH_B }
    else if (k - 101) % 30 = 16 ∨ (k - 101) % 30 = 18 ∨ (k - 101) % 30 = 26 ∨
        (k - 101) % 30 = 28 then { neutral c with HAT := c.HAT_BOTTOM }
    else if (k - 101) % 30 % 2 = 0 then { neutral c with Button := c.SWITCH_A }
    else neutral c

/-- The `(phase, step)` of the closed form after call number `n`:
`(SYNC, n div 5 + 1)` if `n div 5 < 100`, `(LOOP, (n div 5 - 100) mod 30)`
otherwise. -/
def closedFormPhaseStep (n : Nat) : Nat × Nat :=
  if n / 5 < 100 then (SYNC_CONTROLLER, n / 5 + 1) else (LOOP, (n / 5 - 100) % 30)

/-- The hold counter of the closed form after call number `n`: `4 - (n mod 5)`. -/
def closedFormHold (n : Nat) : Nat := 4 - n % 5

/-- The statics at the start of a LOOP cycle, with a zero cached report; used in
the concrete instances. -/
def loopStart : Statics := { last_report := zeroReport, i := 0, j := 0, state := LOOP }

/-! ## The gate: basic facts -/

theorem clearReport_eq (c : JoystickConsts) (b : USB_JoystickReport_Input_t) :
    clearReport c b =
      { Button := 0, HAT := c.HAT_CENTER % 256, LX := 128, LY := 128, RX := 128, RY := 128 } :=
  rfl

theorem GetNextReport_held (c : JoystickConsts) (N : Nat) (s : Statics)
    (b : USB_JoystickReport_Input_t) (h : s.j ≠ 0) :
    GetNextReport c N s b = (s.last_report, { s with j := (s.j + 255) % 256 }) := by
  simp [GetNextReport, h]

theorem GetNextReport_fire (c : JoystickConsts) (N : Nat) (s : Statics)
    (b : USB_JoystickReport_Input_t) (h : s.j = 0) :
    GetNextReport c N s b =
      (advanceReport c N s.phaseStep,
        { last_report := advanceReport c N s.phaseStep,
          i := (advance c N s.phaseStep).2,
          j := 4,
          state := (advance c N s.phaseStep).1 }) := by
  simp [GetNextReport, h, advanceReport, advance, Statics.phaseStep, clearReport_eq]

/-- The statics `n` calls after a state whose hold counter is 0, in closed form
over the automaton trajectory `advances`. -/
theorem staticsAfter_gate (c : JoystickConsts) (N : Nat)
    (bufs : Nat → USB_JoystickReport_Input_t) (s : Statics) (h : s.j = 0) (n : Nat) :
    staticsAfter c N bufs s n =
      { last_report :=
          if n = 0 then s.last_report
          else advanceReport c N (advances c N s.phaseStep ((n - 1) / 5)),
        i := (advances c N s.phaseStep ((n + 4) / 5)).2,
        j := (5 - n % 5) % 5,
        state := (advances c N s.phaseStep ((n + 4) / 5)).1 } := by
  induction n with
  | zero =>
    cases s
    simp_all [staticsAfter, advances, Statics.phaseStep]
  | succ n ih =>
    rw [staticsAfter, ih]
    by_cases hn : n % 5 = 0
    · have h1 : (n + 4) / 5 = n / 5 := by omega
      have h2 : (n + 1 + 4) / 5 = n / 5 + 1 := by omega
      have h3 : (n + 1 - 1) / 5 = n / 5 := by simp
      have h4 : (5 - (n + 1) % 5) % 5 = 4 := by omega
      rw [GetNextReport_fire _ _ _ _ (by simp [hn])]
      simp [Statics.phaseStep, h1, h2, h3, h4, advances]
    · have h1 : (n + 1 + 4) / 5 = (n + 4) / 5 := by omega
      have h3 : (n - 1) / 5 = n / 5 := by omega
      have h0 : n ≠ 0 := by rintro rfl; simp at hn
      have h4 : ((5 - n % 5) % 5 + 255) % 256 = (5 - (n + 1) % 5) % 5 := by omega
      have h5 : (5 - n % 5) % 5 ≠ 0 := by omega
      rw [GetNextReport_held _ _ _ _ (by simpa using h5)]
      simp [h1, h3, h4, h0]

/-- The report of call number `n` after a state whose hold counter is 0 is the
report of automaton advance number `n / 5`. -/
theorem reportOfCall_gate (c : JoystickConsts) (N : Nat)
    (bufs : Nat → USB_JoystickReport_Input_t) (s : Statics) (h : s.j = 0) (n : Nat) :
    reportOfCall c N bufs s n = advanceReport c N (advances c N s.phaseStep (n / 5)) := by
  rw [reportOfCall, staticsAfter_gate c N bufs s h n]
  by_cases hn : n % 5 = 0
  · have h1 : (n + 4) / 5 = n / 5 := by omega
    rw [GetNextReport_fire _ _ _ _ (by simp [hn])]
    simp [Statics.phaseStep, h1]
  · have h3 : (n - 1) / 5 = n / 5 := by omega
    have h0 : n ≠ 0 := by rintro rfl; simp at hn
    have h5 : (5 - n % 5) % 5 ≠ 0 := by omega
    rw [GetNextReport_held _ _ _ _ (by simpa using h5)]
    simp [h3, h0]

/-! ## The automaton: one advance -/

theorem advance_sync (c : JoystickConsts) (N i : Nat) :
    advance c N (SYNC_CONTROLLER, i) =
      if i = 100 then (LOOP, 0) else (SYNC_CONTROLLER, (i + 1) % 65536) := by
  simp only [advance, switchState]
  split_ifs <;> simp_all

theorem advance_loop (c : JoystickConsts) (N i : Nat) :
    advance c N (LOOP, i) =
      if (i : Int) = (N : Int) - 1 then (LOOP, 0) else (LOOP, (i + 1) % 65536) := by
  simp only [advance, switchState, LOOP, SYNC_CONTROLLER]
  split_ifs <;> simp_all

theorem advanceReport_sync (c : JoystickConsts) (N i : Nat) :
    advanceReport c N (SYNC_CONTROLLER, i) =
      if i = 20 ∨ i = 50 then
        orButton (clearReport c zeroReport) (c.SWITCH_L ||| c.SWITCH_R)
      else if i = 80 then orButton (clearReport c zeroReport) c.SWITCH_A
      else clearReport c zeroReport := by
  simp only [advanceReport, switchState]
  split_ifs <;> simp_all

theorem advanceReport_loop (c : JoystickConsts) (i : Nat) :
    advanceReport c LOOP_LENGTH (LOOP, i) =
      if i = 29 then clearReport c zeroReport
      else if i = 24 then orButton (clearReport c zeroReport) c.SWITCH_B
      else if i = 16 ∨ i = 18 ∨ i = 26 ∨ i = 28 then
        { clearReport c zeroReport with HAT := c.HAT_BOTTOM % 256 }
      else if i % 2 = 0 then orButton (clearReport c zeroReport) c.SWITCH_A
      else clearReport c zeroReport := by
  have e1 : ((i : Int) = ((30 : Nat) : Int) - 1) = (i = 29) := by
    apply propext; omega
  have e2 : ((i : Int) = ((30 : Nat) : Int) - 6) = (i = 24) := by
    apply propext; omega
  have e3 : ((i : Int) = ((30 : Nat) : Int) - 14 ∨ (i : Int) = ((30 : Nat) : Int) - 12 ∨
      (i : Int) = ((30 : Nat) : Int) - 4 ∨ (i : Int) = ((30 : Nat) : Int) - 2) =
      (i = 16 ∨ i = 18 ∨ i = 26 ∨ i = 28) := by
    apply propext; omega
  have e4 : (i &&& 1 = 0) = (i % 2 = 0) := by rw [Nat.and_one_is_mod]
  simp only [advanceReport, switchState, LOOP, SYNC_CONTROLLER, LOOP_LENGTH, e1, e2, e3, e4]
  split_ifs <;> simp_all

theorem clearReport_wf (c : JoystickConsts) (hc : c.WellFormed)
    (b : USB_JoystickReport_Input_t) : clearReport c b = neutral c := by
  obtain ⟨-, -, -, h, -, -⟩ := hc
  simp [clearReport_eq, neutral, Nat.mod_eq_of_lt h]

theorem orButton_neutral (c : JoystickConsts) (m : Nat) (hm : m < 65536) :
    orButton (neutral c) m = { neutral c with Button := m } := by
  simp [orButton, neutral, Nat.mod_eq_of_lt hm]

theorem or_and_self_left (a b : Nat) : (a ||| b) &&& a = a := by
  apply Nat.eq_of_testBit_eq
  intro k
  simp only [Nat.testBit_and, Nat.testBit_or]
  cases a.testBit k <;> cases b.testBit k <;> rfl

/-- What well-formed constants give about the masks the automaton uses. -/
theorem wf_masks (c : JoystickConsts) (hc : c.WellFormed) :
    c.SWITCH_L ||| c.SWITCH_R < 65536 ∧ c.SWITCH_L ||| c.SWITCH_R ≠ 0 ∧
    c.SWITCH_L ||| c.SWITCH_R ≠ c.SWITCH_A ∧ c.SWITCH_L ||| c.SWITCH_R ≠ c.SWITCH_B ∧
    c.SWITCH_A ≠ c.SWITCH_B := by
  obtain ⟨⟨hA, hB, hL, hR⟩, ⟨nA, nB, nL, nR⟩, ⟨dAB, dAL, dAR, dBL, dBR, dLR⟩, -⟩ := hc
  refine ⟨Nat.or_lt_two_pow (n := 16) hL hR, ?_, ?_, ?_, ?_⟩
  · intro h
    have := or_and_self_left c.SWITCH_L c.SWITCH_R
    rw [h] at this
    simp at this
    exact nL this.symm
  · intro h
    have := or_and_self_left c.SWITCH_L c.SWITCH_R
    rw [h, dAL] at this
    exact nL this.symm
  · intro h
    have := or_and_self_left c.SWITCH_L c.SWITCH_R
    rw [h, dBL] at this
    exact nL this.symm
  · intro h
    rw [h, Nat.and_self] at dAB
    exact nB dAB

/-- The report of an automaton advance in SYNC, for well-formed constants. -/
theorem syncReport_wf (c : JoystickConsts) (hc : c.WellFormed) (N i : Nat) :
    advanceReport c N (SYNC_CONTROLLER, i) =
      if i = 20 ∨ i = 50 then { neutral c with Button := c.SWITCH_L ||| c.SWITCH_R }
      else if i = 80 then { neutral c with Button := c.SWITCH_A }
      else neutral c := by
  rw [advanceReport_sync, clearReport_wf c hc, orButton_neutral c _ (wf_masks c hc).1,
    orButton_neutral c _ hc.1.1]

/-- The report of an automaton advance in LOOP, for well-formed constants and
the loop length of the source. -/
theorem loopReport_wf (c : JoystickConsts) (hc : c.WellFormed) (i : Nat) :
    advanceReport c LOOP_LENGTH (LOOP, i) =
      if i = 29 then neutral c
      else if i = 24 then { neutral c with Button := c.SWITCH_B }
      else if i = 16 ∨ i = 18 ∨ i = 26 ∨ i = 28 then { neutral c with HAT := c.HAT_BOTTOM }
      else if i % 2 = 0 then { neutral c with Button := c.SWITCH_A }
      else neutral c := by
  rw [advanceReport_loop, clearReport_wf c hc, orButton_neutral c _ hc.1.1,
    orButton_neutral c _ hc.1.2.1, Nat.mod_eq_of_lt hc.2.2.2.2.1]

/-! ## The automaton: trajectories -/

/-- The trajectory of `(state, i)` from the fresh state: `k` steps of SYNC up to
step 100, then LOOP with the step running modulo 30. -/
theorem advances_fresh (c : JoystickConsts) (k : Nat) :
    advances c LOOP_LENGTH fresh.phaseStep k =
      if k ≤ 100 then (SYNC_CONTROLLER, k) else (LOOP, (k - 101) % 30) := by
  induction k with
  | zero => simp [advances, fresh, Statics.phaseStep]
  | succ k ih =>
    rw [advances, ih]
    by_cases h1 : k ≤ 100
    · rw [if_pos h1, advance_sync]
      by_cases h2 : k = 100
      · subst h2; simp
      · have h3 : k + 1 ≤ 100 := by omega
        have h4 : (k + 1) % 65536 = k + 1 := by omega
        simp [h2, h3, h4]
    · rw [if_neg h1, advance_loop]
      have h3 : ¬ k + 1 ≤ 100 := by omega
      rw [if_neg h3]
      by_cases h2 : (k - 101) % 30 = 29
      · have h5 : (k + 1 - 101) % 30 = 0 := by omega
        have h6 : (k - 100) % 30 = 0 := by omega
        simp [LOOP_LENGTH, h2, h5, h6]
      · have h4 : (((k - 101) % 30 : Nat) : Int) ≠ ((LOOP_LENGTH : Nat) : Int) - 1 := by
          simp only [LOOP_LENGTH]; omega
        have h5 : ((k - 101) % 30 + 1) % 65536 = (k + 1 - 101) % 30 := by omega
        rw [if_neg h4, h5]

/-- The trajectory of `(state, i)` from a LOOP state with `i < 30`: the step runs
modulo 30. -/
theorem advances_loop (c : JoystickConsts) (i0 : Nat) (h0 : i0 < 30) (k : Nat) :
    advances c LOOP_LENGTH (LOOP, i0) k = (LOOP, (i0 + k) % 30) := by
  induction k with
  | zero => simp [advances, Nat.mod_eq_of_lt h0]
  | succ k ih =>
    rw [advances, ih, advance_loop]
    by_cases h2 : (i0 + k) % 30 = 29
    · have h5 : (i0 + (k + 1)) % 30 = 0 := by omega
      simp [LOOP_LENGTH, h2, h5]
    · have h4 : (((i0 + k) % 30 : Nat) : Int) ≠ ((LOOP_LENGTH : Nat) : Int) - 1 := by
        simp only [LOOP_LENGTH]; omega
      have h5 : ((i0 + k) % 30 + 1) % 65536 = (i0 + (k + 1)) % 30 := by omega
      rw [if_neg h4, h5]

/-- In a run from a state with hold counter 0, the hold counter is 0 exactly
before the calls whose number is a multiple of 5. -/
theorem hold_zero_iff (c : JoystickConsts) (N : Nat)
    (bufs : Nat → USB_JoystickReport_Input_t) (s : Statics) (h : s.j = 0) (n : Nat) :
    (staticsAfter c N bufs s n).j = 0 ↔ n % 5 = 0 := by
  rw [staticsAfter_gate c N bufs s h n]
  simp only
  omega

/-- In a run from a state with hold counter 0, the phase and step after `n` calls
are those after `(n + 4) / 5` automaton advances. -/
theorem phaseStep_gate (c : JoystickConsts) (N : Nat)
    (bufs : Nat → USB_JoystickReport_Input_t) (s : Statics) (h : s.j = 0) (n : Nat) :
    (staticsAfter c N bufs s n).phaseStep = advances c N s.phaseStep ((n + 4) / 5) := by
  rw [staticsAfter_gate c N bufs s h n]
  simp [Statics.phaseStep]

/-! ## The SYNC schedule and the handshake -/

/-- C1 (SYNC schedule).  In the run from the fresh state the hold counter is 0
exactly before the calls numbered 0, 5, 10, ..., so automaton advance number
`k` is call number `5 * k`.  For every `k ≤ 100` that call sees
`state = SYNC_CONTROLLER` and `i = k`, and the report it returns has
`Button = SWITCH_L | SWITCH_R` exactly when `k` is 20 or 50,
`Button = SWITCH_A` exactly when `k = 80`, `Button = 0` for every other `k`
(100 included), and always `HAT = HAT_CENTER` and all four axes at 128. -/
theorem C1_sync_schedule (c : JoystickConsts) (hc : c.WellFormed)
    (bufs : Nat → USB_JoystickReport_Input_t) (k : Nat) (hk : k ≤ 100) :
    (∀ n, (staticsAfter c LOOP_LENGTH bufs fresh n).j = 0 ↔ n % 5 = 0) ∧
    (staticsAfter c LOOP_LENGTH bufs fresh (5 * k)).phaseStep = (SYNC_CONTROLLER, k) ∧
    ((reportOfCall c LOOP_LENGTH bufs fresh (5 * k)).Button = c.SWITCH_L ||| c.SWITCH_R ↔
      k = 20 ∨ k = 50) ∧
    ((reportOfCall c LOOP_LENGTH bufs fresh (5 * k)).Button = c.SWITCH_A ↔ k = 80) ∧
    (k ≠ 20 → k ≠ 50 → k ≠ 80 → (reportOfCall c LOOP_LENGTH bufs fresh (5 * k)).Button = 0) ∧
    (reportOfCall c LOOP_LENGTH bufs fresh (5 * k)).HAT = c.HAT_CENTER ∧
    (reportOfCall c LOOP_LENGTH bufs fresh (5 * k)).LX = 128 ∧
    (reportOfCall c LOOP_LENGTH bufs fresh (5 * k)).LY = 128 ∧
    (reportOfCall c LOOP_LENGTH bufs fresh (5 * k)).RX = 128 ∧
    (reportOfCall c LOOP_LENGTH bufs fresh (5 * k)).RY = 128 := by
  have hj : fresh.j = 0 := rfl
  have hp : advances c LOOP_LENGTH fresh.phaseStep k = (SYNC_CONTROLLER, k) := by
    rw [advances_fresh, if_pos hk]
  have hr : reportOfCall c LOOP_LENGTH bufs fresh (5 * k) =
      if k = 20 ∨ k = 50 then { neutral c with Button := c.SWITCH_L ||| c.SWITCH_R }
      else if k = 80 then { neutral c with Button := c.SWITCH_A }
      else neutral c := by
    rw [reportOfCall_gate c LOOP_LENGTH bufs fresh hj, Nat.mul_div_cancel_left k (by norm_num),
      hp, syncReport_wf c hc]
  obtain ⟨-, hLR0, hLRA, -, -⟩ := wf_masks c hc
  have hA0 : c.SWITCH_A ≠ 0 := hc.2.1.1
  refine ⟨hold_zero_iff c LOOP_LENGTH bufs fresh hj, ?_, ?_, ?_, ?_, ?_, ?_, ?_, ?_, ?_⟩
  · rw [phaseStep_gate c LOOP_LENGTH bufs fresh hj, ← hp]
    congr 1
    omega
  · rw [hr]
    by_cases h1 : k = 20 ∨ k = 50
    · simp [h1]
    · by_cases h2 : k = 80
      · simp [h2, neutral, hLRA.symm]
      · simp [h1, h2, neutral, hLR0.symm]
  · rw [hr]
    by_cases h1 : k = 20 ∨ k = 50
    · have h2 : k ≠ 80 := by omega
      simp [h1, h2, hLRA]
    · by_cases h2 : k = 80
      · simp [h2]
      · simp [h1, h2, neutral, hA0.symm]
  · intro h20 h50 h80
    rw [hr]
    simp [h20, h50, h80, neutral]
  all_goals
    rw [hr]
    split_ifs <;> rfl

/-- C1, at the Pokken-pad constants and advance number 20. -/
theorem C1_sync_schedule_witness :
    pokken.WellFormed ∧ 20 ≤ 100 ∧
    ((reportOfCall pokken LOOP_LENGTH zeroBufs fresh (5 * 20)).Button =
      pokken.SWITCH_L ||| pokken.SWITCH_R ↔ 20 = 20 ∨ 20 = 50) :=
  ⟨by decide, by decide,
    (C1_sync_schedule pokken (by decide) zeroBufs 20 (by decide)).2.2.1⟩

/-- C2 (end-to-end handshake).  In the run from the fresh state the first `n`
calls make `(n + 4) / 5` automaton advances (the hold counter is 0 exactly
before calls 0, 5, 10, ...).  While fewer than 101 advances have been made the
state is `SYNC_CONTROLLER`; once exactly 101 have been made the state is `LOOP`
with `i = 0`; the 102nd advance (call number 505) returns the report with
`Button = SWITCH_A`, hat centred and axes 128, and leaves `state = LOOP`,
`i = 1`. -/
theorem C2_handshake (c : JoystickConsts) (hc : c.WellFormed)
    (bufs : Nat → USB_JoystickReport_Input_t) :
    (∀ n, (staticsAfter c LOOP_LENGTH bufs fresh n).j = 0 ↔ n % 5 = 0) ∧
    (∀ n, (n + 4) / 5 < 101 →
      (staticsAfter c LOOP_LENGTH bufs fresh n).state = SYNC_CONTROLLER) ∧
    (∀ n, (n + 4) / 5 = 101 →
      (staticsAfter c LOOP_LENGTH bufs fresh n).phaseStep = (LOOP, 0)) ∧
    reportOfCall c LOOP_LENGTH bufs fresh 505 = { neutral c with Button := c.SWITCH_A } ∧
    (staticsAfter c LOOP_LENGTH bufs fresh 506).phaseStep = (LOOP, 1) := by
  have hj : fresh.j = 0 := rfl
  refine ⟨hold_zero_iff c LOOP_LENGTH bufs fresh hj, ?_, ?_, ?_, ?_⟩
  · intro n hn
    have h := phaseStep_gate c LOOP_LENGTH bufs fresh hj n
    rw [advances_fresh, if_pos (by omega)] at h
    exact congrArg Prod.fst h
  · intro n hn
    rw [phaseStep_gate c LOOP_LENGTH bufs fresh hj n, advances_fresh, hn]
    simp
  · rw [reportOfCall_gate c LOOP_LENGTH bufs fresh hj, advances_fresh]
    simp [loopReport_wf c hc]
  · rw [phaseStep_gate c LOOP_LENGTH bufs fresh hj, advances_fresh]
    simp

/-- C2, at the Pokken-pad constants. -/
theorem C2_handshake_witness :
    pokken.WellFormed ∧
    reportOfCall pokken LOOP_LENGTH zeroBufs fresh 505 =
      { neutral pokken with Button := pokken.SWITCH_A } :=
  ⟨by decide, (C2_handshake pokken (by decide) zeroBufs).2.2.2.1⟩

/-! ## The LOOP cycle -/

/-- The phase and step of a LOOP state at step 0. -/
theorem loopStart_phaseStep (s : Statics) (hs : s.state = LOOP) (hi : s.i = 0) :
    s.phaseStep = (LOOP, 0) := by
  simp [Statics.phaseStep, hs, hi]

/-- C3 (LOOP cycle for N = 30).  Take any statics with `state = LOOP`, `i = 0` and
hold counter 0, and the 30 automaton advances that follow (calls number
`5 * k`, `k < 30`).  Advance `k` sees step `i = k`.  Its report asserts
`SWITCH_B` exactly when `k = 24` (and is then neutral but for
`Button = SWITCH_B`); it has `HAT = HAT_BOTTOM` exactly when `k` is 16, 18, 26
or 28 (and is then neutral but for the hat); at every other even step it is
neutral but for `Button = SWITCH_A`; at every odd step it is neutral.  After
the advance at step 29 the statics hold `state = LOOP` and `i = 0` again. -/
theorem C3_loop_cycle (c : JoystickConsts) (hc : c.WellFormed)
    (bufs : Nat → USB_JoystickReport_Input_t) (s : Statics)
    (hs : s.state = LOOP) (hi : s.i = 0) (hj : s.j = 0) (k : Nat) (hk : k < 30) :
    (staticsAfter c LOOP_LENGTH bufs s (5 * k)).phaseStep = (LOOP, k) ∧
    (staticsAfter c LOOP_LENGTH bufs s (5 * k)).j = 0 ∧
    ((reportOfCall c LOOP_LENGTH bufs s (5 * k)).Button &&& c.SWITCH_B ≠ 0 ↔ k = 24) ∧
    (k = 24 →
      reportOfCall c LOOP_LENGTH bufs s (5 * k) = { neutral c with Button := c.SWITCH_B }) ∧
    ((reportOfCall c LOOP_LENGTH bufs s (5 * k)).HAT = c.HAT_BOTTOM ↔
      k = 16 ∨ k = 18 ∨ k = 26 ∨ k = 28) ∧
    (k = 16 ∨ k = 18 ∨ k = 26 ∨ k = 28 →
      reportOfCall c LOOP_LENGTH bufs s (5 * k) = { neutral c with HAT := c.HAT_BOTTOM }) ∧
    (k % 2 = 0 → k ≠ 16 → k ≠ 18 → k ≠ 24 → k ≠ 26 → k ≠ 28 →
      reportOfCall c LOOP_LENGTH bufs s (5 * k) = { neutral c with Button := c.SWITCH_A }) ∧
    (k % 2 = 1 → reportOfCall c LOOP_LENGTH bufs s (5 * k) = neutral c) ∧
    (staticsAfter c LOOP_LENGTH bufs s (5 * 29 + 1)).phaseStep = (LOOP, 0) := by
  have hps := loopStart_phaseStep s hs hi
  have hp : advances c LOOP_LENGTH s.phaseStep k = (LOOP, k) := by
    rw [hps, advances_loop c 0 (by norm_num), Nat.zero_add, Nat.mod_eq_of_lt hk]
  have hr : reportOfCall c LOOP_LENGTH bufs s (5 * k) =
      if k = 29 then neutral c
      else if k = 24 then { neutral c with Button := c.SWITCH_B }
      else if k = 16 ∨ k = 18 ∨ k = 26 ∨ k = 28 then { neutral c with HAT := c.HAT_BOTTOM }
      else if k % 2 = 0 then { neutral c with Button := c.SWITCH_A }
      else neutral c := by
    rw [reportOfCall_gate c LOOP_LENGTH bufs s hj, Nat.mul_div_cancel_left k (by norm_num),
      hp, loopReport_wf c hc]
  obtain ⟨-, ⟨-, hB0, -, -⟩, ⟨dAB, -, -, -, -, -⟩, -, -, hH⟩ := hc
  refine ⟨?_, ?_, ?_, ?_, ?_, ?_, ?_, ?_, ?_⟩
  · rw [phaseStep_gate c LOOP_LENGTH bufs s hj, ← hp]
    congr 1
    omega
  · rw [hold_zero_iff c LOOP_LENGTH bufs s hj]
    omega
  · rw [hr]
    split_ifs with h1 h2 h3 h4
    · simp [neutral]; omega
    · simp [h2, hB0]
    · simp [neutral, h2]
    · simp [dAB, h2]
    · simp [neutral, h2]
  · intro h
    rw [hr]
    simp [h]
  · rw [hr]
    split_ifs with h1 h2 h3 h4
    · simp [neutral, hH]; omega
    · simp [neutral, hH]; omega
    · simp [h3]
    · simp [neutral, hH, h3]
    · simp [neutral, hH, h3]
  · intro h
    rw [hr, if_neg (by omega), if_neg (by omega), if_pos h]
  · intro h0 h16 h18 h24 h26 h28
    rw [hr, if_neg (by omega), if_neg h24, if_neg (by omega), if_pos h0]
  · intro h
    rw [hr]
    split_ifs with h1 h2 h3 h4
    · rfl
    · omega
    · omega
    · omega
    · rfl
  · rw [phaseStep_gate c LOOP_LENGTH bufs s hj, hps, advances_loop c 0 (by norm_num)]

/-- C3, at the Pokken-pad constants, from the LOOP start with a zero cached
report, at step 24. -/
theorem C3_loop_cycle_witness :
    pokken.WellFormed ∧ 24 < 30 ∧
    ((reportOfCall pokken LOOP_LENGTH zeroBufs
        { last_report := zeroReport, i := 0, j := 0, state := LOOP } (5 * 24)).Button &&&
      pokken.SWITCH_B ≠ 0 ↔ 24 = 24) :=
  ⟨by decide, by decide,
    (C3_loop_cycle pokken (by decide) zeroBufs
      { last_report := zeroReport, i := 0, j := 0, state := LOOP } rfl rfl rfl 24
      (by decide)).2.2.1⟩

/-! ## The cadence gate -/

/-- C4 (cadence gate, hold = 4).  From any statics whose hold counter is 0 (the
reachable ones included): the next five calls return the same report, that of
the automaton advance at the current `(state, i)`; the first call replaces
`(state, i)` by its advance and the next four leave it alone; the hold counter
runs 4, 3, 2, 1, 0, so the sixth call sees 0 again and performs the next
advance.  In the run from the fresh state calls `5 * m .. 5 * m + 4` return the
same report for every `m`, and every advance there changes `(state, i)`. -/
theorem C4_cadence_gate (c : JoystickConsts) (bufs : Nat → USB_JoystickReport_Input_t)
    (s : Statics) (hj : s.j = 0) :
    reportOfCall c LOOP_LENGTH bufs s 0 = advanceReport c LOOP_LENGTH s.phaseStep ∧
    (∀ m, m < 5 →
      reportOfCall c LOOP_LENGTH bufs s m = reportOfCall c LOOP_LENGTH bufs s 0) ∧
    (staticsAfter c LOOP_LENGTH bufs s 1).phaseStep = advance c LOOP_LENGTH s.phaseStep ∧
    (∀ m, 1 ≤ m → m ≤ 5 →
      (staticsAfter c LOOP_LENGTH bufs s m).phaseStep =
        (staticsAfter c LOOP_LENGTH bufs s 1).phaseStep) ∧
    (∀ m, m < 5 → (staticsAfter c LOOP_LENGTH bufs s (m + 1)).j = 4 - m) ∧
    reportOfCall c LOOP_LENGTH bufs s 5 =
      advanceReport c LOOP_LENGTH (advance c LOOP_LENGTH s.phaseStep) ∧
    (staticsAfter c LOOP_LENGTH bufs s 6).phaseStep =
      advance c LOOP_LENGTH (advance c LOOP_LENGTH s.phaseStep) ∧
    (∀ m r, r < 5 →
      reportOfCall c LOOP_LENGTH bufs fresh (5 * m + r) =
        reportOfCall c LOOP_LENGTH bufs fresh (5 * m)) ∧
    (∀ m, (staticsAfter c LOOP_LENGTH bufs fresh (5 * m + 1)).phaseStep ≠
      (staticsAfter c LOOP_LENGTH bufs fresh (5 * m)).phaseStep) := by
  have hf : fresh.j = 0 := rfl
  refine ⟨?_, ?_, ?_, ?_, ?_, ?_, ?_, ?_, ?_⟩
  · rw [reportOfCall_gate c LOOP_LENGTH bufs s hj]
    rfl
  · intro m hm
    rw [reportOfCall_gate c LOOP_LENGTH bufs s hj, reportOfCall_gate c LOOP_LENGTH bufs s hj]
    have : m / 5 = 0 / 5 := by omega
    rw [this]
  · rw [phaseStep_gate c LOOP_LENGTH bufs s hj]
    rfl
  · intro m h1 h5
    rw [phaseStep_gate c LOOP_LENGTH bufs s hj, phaseStep_gate c LOOP_LENGTH bufs s hj]
    have : (m + 4) / 5 = (1 + 4) / 5 := by omega
    rw [this]
  · intro m hm
    rw [staticsAfter_gate c LOOP_LENGTH bufs s hj]
    simp only
    omega
  · rw [reportOfCall_gate c LOOP_LENGTH bufs s hj]
    rfl
  · rw [phaseStep_gate c LOOP_LENGTH bufs s hj]
    rfl
  · intro m r hr
    rw [reportOfCall_gate c LOOP_LENGTH bufs fresh hf,
      reportOfCall_gate c LOOP_LENGTH bufs fresh hf]
    have : (5 * m + r) / 5 = 5 * m / 5 := by omega
    rw [this]
  · intro m
    rw [phaseStep_gate c LOOP_LENGTH bufs fresh hf, phaseStep_gate c LOOP_LENGTH bufs fresh hf,
      advances_fresh, advances_fresh]
    have e1 : (5 * m + 1 + 4) / 5 = m + 1 := by omega
    have e2 : (5 * m + 4) / 5 = m := by omega
    rw [e1, e2]
    simp only [SYNC_CONTROLLER, LOOP]
    split_ifs <;> first | (simp; done) | (simp; omega)

/-- C4, at the Pokken-pad constants, from the fresh state. -/
theorem C4_cadence_gate_witness :
    fresh.j = 0 ∧
    (staticsAfter pokken LOOP_LENGTH zeroBufs fresh 1).phaseStep =
      advance pokken LOOP_LENGTH fresh.phaseStep :=
  ⟨rfl, (C4_cadence_gate pokken zeroBufs fresh rfl).2.2.1⟩

/-- C5 (one step of the gate).  For every statics and every buffer: if the hold
counter `j` is nonzero the call returns the cached `last_report`, stores
`j - 1` (as a `uint8_t`; that is `j - 1` for every 8-bit `j`), and leaves
`state`, `i` and `last_report` as they were; if `j` is zero the call returns the
report the `switch` builds from the cleared buffer, stores `j = 4`, caches the
returned report in `last_report`, and stores the `state` and `i` the `switch`
computed. -/
theorem C5_gate_step (c : JoystickConsts) (N : Nat) (s : Statics)
    (b : USB_JoystickReport_Input_t) :
    (s.j ≠ 0 →
      (GetNextReport c N s b).1 = s.last_report ∧
      (GetNextReport c N s b).2.j = (s.j + 255) % 256 ∧
      (s.j < 256 → (GetNextReport c N s b).2.j = s.j - 1) ∧
      (GetNextReport c N s b).2.state = s.state ∧
      (GetNextReport c N s b).2.i = s.i ∧
      (GetNextReport c N s b).2.last_report = s.last_report) ∧
    (s.j = 0 →
      (GetNextReport c N s b).1 = (switchState c N s.state s.i (clearReport c b)).1 ∧
      (GetNextReport c N s b).2.j = 4 ∧
      (GetNextReport c N s b).2.last_report = (GetNextReport c N s b).1 ∧
      (GetNextReport c N s b).2.state = (switchState c N s.state s.i (clearReport c b)).2.1 ∧
      (GetNextReport c N s b).2.i = (switchState c N s.state s.i (clearReport c b)).2.2) := by
  constructor
  · intro h
    rw [GetNextReport_held c N s b h]
    refine ⟨rfl, rfl, ?_, rfl, rfl, rfl⟩
    intro h8
    show (s.j + 255) % 256 = s.j - 1
    omega
  · intro h
    simp [GetNextReport, h]

/-- C5, at the Pokken-pad constants: a held call (`j = 3`) and a firing call
(`j = 0`). -/
theorem C5_gate_step_witness :
    ((3 : Nat) ≠ 0 ∧
      (GetNextReport pokken LOOP_LENGTH
          { last_report := neutral pokken, i := 7, j := 3, state := LOOP } zeroReport).1 =
        neutral pokken) ∧
    ((0 : Nat) = 0 ∧
      (GetNextReport pokken LOOP_LENGTH
          { last_report := neutral pokken, i := 7, j := 0, state := LOOP } zeroReport).2.j = 4) :=
  ⟨⟨by decide,
      ((C5_gate_step pokken LOOP_LENGTH
          { last_report := neutral pokken, i := 7, j := 3, state := LOOP } zeroReport).1
        (by decide)).1⟩,
    ⟨rfl,
      ((C5_gate_step pokken LOOP_LENGTH
          { last_report := neutral pokken, i := 7, j := 0, state := LOOP } zeroReport).2
        rfl).2.1⟩⟩

/-! ## Neutral defaults -/

/-- C6 (neutral defaults for all tick counts).  In the run from the fresh state
the report returned by call number `n` is the report of the automaton advance
it stems from, call number `5 * (n / 5)` (which sees hold counter 0).  It has
all four axes at 128.  Its hat is `HAT_BOTTOM` when that advance sees
`state = LOOP` and `i` in `{N - 14, N - 12, N - 4, N - 2}` and `HAT_CENTER`
otherwise.  It is never the zero-initialised `last_report`. -/
theorem C6_neutral_defaults (c : JoystickConsts) (hc : c.WellFormed)
    (bufs : Nat → USB_JoystickReport_Input_t) (n : Nat) :
    (reportOfCall c LOOP_LENGTH bufs fresh n).LX = 128 ∧
    (reportOfCall c LOOP_LENGTH bufs fresh n).LY = 128 ∧
    (reportOfCall c LOOP_LENGTH bufs fresh n).RX = 128 ∧
    (reportOfCall c LOOP_LENGTH bufs fresh n).RY = 128 ∧
    (staticsAfter c LOOP_LENGTH bufs fresh (5 * (n / 5))).j = 0 ∧
    reportOfCall c LOOP_LENGTH bufs fresh n =
      reportOfCall c LOOP_LENGTH bufs fresh (5 * (n / 5)) ∧
    (reportOfCall c LOOP_LENGTH bufs fresh n).HAT =
      (if (staticsAfter c LOOP_LENGTH bufs fresh (5 * (n / 5))).state = LOOP ∧
          ((staticsAfter c LOOP_LENGTH bufs fresh (5 * (n / 5))).i = LOOP_LENGTH - 14 ∨
           (staticsAfter c LOOP_LENGTH bufs fresh (5 * (n / 5))).i = LOOP_LENGTH - 12 ∨
           (staticsAfter c LOOP_LENGTH bufs fresh (5 * (n / 5))).i = LOOP_LENGTH - 4 ∨
           (staticsAfter c LOOP_LENGTH bufs fresh (5 * (n / 5))).i = LOOP_LENGTH - 2)
        then c.HAT_BOTTOM else c.HAT_CENTER) ∧
    reportOfCall c LOOP_LENGTH bufs fresh n ≠ fresh.last_report := by
  have hf : fresh.j = 0 := rfl
  have hps := phaseStep_gate c LOOP_LENGTH bufs fresh hf (5 * (n / 5))
  have e1 : (5 * (n / 5) + 4) / 5 = n / 5 := by omega
  rw [e1, advances_fresh] at hps
  have hst : (staticsAfter c LOOP_LENGTH bufs fresh (5 * (n / 5))).state =
      (if n / 5 ≤ 100 then (SYNC_CONTROLLER, n / 5) else (LOOP, (n / 5 - 101) % 30)).1 :=
    congrArg Prod.fst hps
  have hi : (staticsAfter c LOOP_LENGTH bufs fresh (5 * (n / 5))).i =
      (if n / 5 ≤ 100 then (SYNC_CONTROLLER, n / 5) else (LOOP, (n / 5 - 101) % 30)).2 :=
    congrArg Prod.snd hps
  have hr := reportOfCall_gate c LOOP_LENGTH bufs fresh hf n
  rw [advances_fresh] at hr
  have hax : (reportOfCall c LOOP_LENGTH bufs fresh n).LX = 128 ∧
      (reportOfCall c LOOP_LENGTH bufs fresh n).LY = 128 ∧
      (reportOfCall c LOOP_LENGTH bufs fresh n).RX = 128 ∧
      (reportOfCall c LOOP_LENGTH bufs fresh n).RY = 128 := by
    rw [hr]
    by_cases h : n / 5 ≤ 100
    · rw [if_pos h, syncReport_wf c hc]
      split_ifs <;> simp [neutral]
    · rw [if_neg h, loopReport_wf c hc]
      split_ifs <;> simp [neutral]
  refine ⟨hax.1, hax.2.1, hax.2.2.1, hax.2.2.2, ?_, ?_, ?_, ?_⟩
  · rw [hold_zero_iff c LOOP_LENGTH bufs fresh hf]
    omega
  · rw [reportOfCall_gate c LOOP_LENGTH bufs fresh hf n,
      reportOfCall_gate c LOOP_LENGTH bufs fresh hf (5 * (n / 5))]
    have : 5 * (n / 5) / 5 = n / 5 := by omega
    rw [this]
  · rw [hst, hi, hr]
    by_cases h : n / 5 ≤ 100
    · rw [if_pos h, syncReport_wf c hc]
      have : ¬ (SYNC_CONTROLLER = LOOP) := by decide
      split_ifs <;> simp_all [neutral]
    · rw [if_neg h, loopReport_wf c hc]
      simp only [LOOP_LENGTH]
      split_ifs <;> simp_all [neutral]
  · intro h
    have := hax.1
    rw [h] at this
    simp [fresh, zeroReport] at this

/-- C6, at the Pokken-pad constants and call number 587 (advance 117, LOOP step
16). -/
theorem C6_neutral_defaults_witness :
    pokken.WellFormed ∧
    (reportOfCall pokken LOOP_LENGTH zeroBufs fresh 587).LX = 128 :=
  ⟨by decide, (C6_neutral_defaults pokken (by decide) zeroBufs 587).1⟩

/-! ## Transport -/

/-- What `GetNextReport` returns and stores does not depend on what the caller's
buffer held. -/
theorem GetNextReport_buffer (c : JoystickConsts) (N : Nat) (s : Statics)
    (b b' : USB_JoystickReport_Input_t) :
    GetNextReport c N s b = GetNextReport c N s b' := by
  simp [GetNextReport, clearReport_eq]

/-- A call of `GetNextReport` always changes the statics (the hold counter
moves). -/
theorem GetNextReport_moves (c : JoystickConsts) (N : Nat) (s : Statics)
    (b : USB_JoystickReport_Input_t) : (GetNextReport c N s b).2 ≠ s := by
  intro h
  have hj := congrArg Statics.j h
  by_cases h0 : s.j = 0
  · rw [GetNextReport_fire c N s b h0] at hj
    simp only at hj
    omega
  · rw [GetNextReport_held c N s b h0] at hj
    simp only at hj
    omega

theorem inReports_append (a b : List HwEvent) :
    inReports (a ++ b) = inReports a ++ inReports b := by
  induction a with
  | nil => rfl
  | cons e a ih => cases e <;> simp [inReports, ih]

/-- The statics after `HID_Task`: one call of `GetNextReport` when the device is
configured and the IN endpoint is ready, untouched otherwise. -/
theorem HID_Task_statics (u : UsbConsts) (c : JoystickConsts) (N : Nat) (s : Statics)
    (x : HidInputs) :
    (HID_Task u c N s x).1 =
      if x.USB_DeviceState = u.DEVICE_STATE_Configured ∧ x.IsINReady = true then
        (GetNextReport c N s zeroReport).2
      else s := by
  unfold HID_Task
  by_cases h1 : x.USB_DeviceState = u.DEVICE_STATE_Configured
  · by_cases h2 : x.IsINReady = true
    · simp [h1, h2, GetNextReport_buffer c N s x.JoystickInputData zeroReport]
    · simp [h1, h2]
  · simp [h1]

/-- The IN reports `HID_Task` writes: the report of one call of `GetNextReport`
when the device is configured and the IN endpoint is ready, none otherwise. -/
theorem HID_Task_inReports (u : UsbConsts) (c : JoystickConsts) (N : Nat) (s : Statics)
    (x : HidInputs) :
    inReports (HID_Task u c N s x).2 =
      if x.USB_DeviceState = u.DEVICE_STATE_Configured ∧ x.IsINReady = true then
        [(GetNextReport c N s zeroReport).1]
      else [] := by
  unfold HID_Task
  by_cases h1 : x.USB_DeviceState = u.DEVICE_STATE_Configured
  · by_cases h2 : x.IsINReady = true
    · cases h3 : x.IsOUTReceived <;> cases h4 : x.IsReadWriteAllowed <;>
        simp [h1, h2, inReports, GetNextReport_buffer c N s x.JoystickInputData zeroReport]
    · cases h3 : x.IsOUTReceived <;> cases h4 : x.IsReadWriteAllowed <;>
        simp [h1, h2, inReports]
  · simp [h1, inReports]

/-- C7 (the discard path does not interfere).  Two runs of `HID_Task` over input
sequences of the same length, from the same statics, whose inputs agree at
every tick on the device state and on the IN-ready flag (and may differ in
the OUT-received flag, the read/write-allowed flag, the OUT payload and the
stale buffer contents) end in the same statics and write the same sequence of
IN reports. -/
theorem C7_discard_noninterference (u : UsbConsts) (c : JoystickConsts) (N : Nat)
    (s : Statics) (xs ys : List HidInputs) (h : List.Forall₂ HidInputs.agree xs ys) :
    (runHID u c N s xs).1 = (runHID u c N s ys).1 ∧
    inReports (runHID u c N s xs).2 = inReports (runHID u c N s ys).2 := by
  induction h generalizing s with
  | nil => exact ⟨rfl, rfl⟩
  | @cons x y xs ys hxy _ ih =>
    obtain ⟨hd, hr⟩ := hxy
    have e1 : (HID_Task u c N s x).1 = (HID_Task u c N s y).1 := by
      rw [HID_Task_statics, HID_Task_statics, hd, hr]
    have e2 : inReports (HID_Task u c N s x).2 = inReports (HID_Task u c N s y).2 := by
      rw [HID_Task_inReports, HID_Task_inReports, hd, hr]
    simp only [runHID, inReports_append]
    rw [e2, e1]
    exact ⟨(ih _).1, congrArg _ (ih _).2⟩

/-- C7, at the LUFA and Pokken-pad constants, on two two-tick runs from the fresh
state. -/
theorem C7_discard_noninterference_witness :
    List.Forall₂ HidInputs.agree c7RunA c7RunB ∧
    ((runHID lufa pokken LOOP_LENGTH fresh c7RunA).1 =
        (runHID lufa pokken LOOP_LENGTH fresh c7RunB).1 ∧
      inReports (runHID lufa pokken LOOP_LENGTH fresh c7RunA).2 =
        inReports (runHID lufa pokken LOOP_LENGTH fresh c7RunB).2) :=
  ⟨List.Forall₂.cons ⟨rfl, rfl⟩ (List.Forall₂.cons ⟨rfl, rfl⟩ List.Forall₂.nil),
    C7_discard_noninterference lufa pokken LOOP_LENGTH fresh c7RunA c7RunB
      (List.Forall₂.cons ⟨rfl, rfl⟩ (List.Forall₂.cons ⟨rfl, rfl⟩ List.Forall₂.nil))⟩

theorem not_mem_write_of_inReports_nil (hw : List HwEvent)
    (h : inReports hw = []) (r : USB_JoystickReport_Input_t) :
    HwEvent.Write_Stream_LE r ∉ hw := by
  induction hw with
  | nil => simp
  | cons e hw ih =>
    cases e <;> simp_all [inReports]

/-- C8 (`HID_Task` is a no-op unless configured).  If `USB_DeviceState` is not
`DEVICE_STATE_Configured`, `HID_Task` returns the statics untouched and makes
no hardware call at all.  If it is, then with the IN endpoint ready the statics
are those after one call of `GetNextReport` and exactly one IN report, the one
that call returns, is written; with the IN endpoint not ready the statics are
untouched and no IN report is written.  So, when configured, an IN report is
written if and only if the endpoint is ready, and the statics are those after
one call of `GetNextReport` if and only if the endpoint is ready. -/
theorem C8_hid_task_configured (u : UsbConsts) (c : JoystickConsts) (N : Nat) (s : Statics)
    (x : HidInputs) :
    (x.USB_DeviceState ≠ u.DEVICE_STATE_Configured → HID_Task u c N s x = (s, [])) ∧
    (x.USB_DeviceState = u.DEVICE_STATE_Configured →
      (x.IsINReady = true →
        (HID_Task u c N s x).1 = (GetNextReport c N s x.JoystickInputData).2 ∧
        inReports (HID_Task u c N s x).2 = [(GetNextReport c N s x.JoystickInputData).1]) ∧
      (x.IsINReady = false →
        (HID_Task u c N s x).1 = s ∧ inReports (HID_Task u c N s x).2 = []) ∧
      ((∃ r, HwEvent.Write_Stream_LE r ∈ (HID_Task u c N s x).2) ↔ x.IsINReady = true) ∧
      ((HID_Task u c N s x).1 = (GetNextReport c N s x.JoystickInputData).2 ↔
        x.IsINReady = true)) := by
  have hb := GetNextReport_buffer c N s x.JoystickInputData zeroReport
  constructor
  · intro h
    simp [HID_Task, h]
  · intro h
    have hs := HID_Task_statics u c N s x
    have hr := HID_Task_inReports u c N s x
    refine ⟨?_, ?_, ?_, ?_⟩
    · intro h2
      rw [hs, hr, hb]
      simp [h, h2]
    · intro h2
      rw [hs, hr]
      simp [h, h2]
    · constructor
      · rintro ⟨r, hmem⟩
        by_contra h2
        have h3 : inReports (HID_Task u c N s x).2 = [] := by
          rw [hr]; simp [h2]
        exact not_mem_write_of_inReports_nil _ h3 r hmem
      · intro h2
        refine ⟨(GetNextReport c N s x.JoystickInputData).1, ?_⟩
        simp [HID_Task, h, h2]
    · constructor
      · intro h3
        by_contra h2
        rw [hs, if_neg (by simp [h2])] at h3
        exact GetNextReport_moves c N s x.JoystickInputData h3.symm
      · intro h2
        rw [hs, hb]
        simp [h, h2]

/-- C8, at the LUFA and Pokken-pad constants: an unconfigured device (state 3)
and a configured one with the IN endpoint ready. -/
theorem C8_hid_task_configured_witness :
    ((hidInput 3 true).USB_DeviceState ≠ lufa.DEVICE_STATE_Configured ∧
      HID_Task lufa pokken LOOP_LENGTH fresh (hidInput 3 true) = (fresh, [])) ∧
    ((hidInput 4 true).USB_DeviceState = lufa.DEVICE_STATE_Configured ∧
      (hidInput 4 true).IsINReady = true ∧
      inReports (HID_Task lufa pokken LOOP_LENGTH fresh (hidInput 4 true)).2 =
        [(GetNextReport pokken LOOP_LENGTH fresh (hidInput 4 true).JoystickInputData).1]) :=
  ⟨⟨by decide,
      (C8_hid_task_configured lufa pokken LOOP_LENGTH fresh (hidInput 3 true)).1 (by decide)⟩,
    ⟨rfl, rfl,
      (((C8_hid_task_configured lufa pokken LOOP_LENGTH fresh (hidInput 4 true)).2 rfl).1
        rfl).2⟩⟩

/-- C9 (GetReport shares the gate).  For a control request with
`bRequest = HID_REQ_GetReport`: if `bmRequestType` is
`REQDIR_DEVICETOHOST | REQTYPE_CLASS | REQREC_INTERFACE`, the handler clears
SETUP, writes to the control pipe exactly the report one call of
`GetNextReport` returns from the current statics (whatever the buffer held),
acknowledges, and leaves the statics as that one call leaves them, which is
also what one IN poll of a configured, ready `HID_Task` does; with any other
`bmRequestType` it makes no hardware call and leaves the statics untouched. -/
theorem C9_get_report (u : UsbConsts) (c : JoystickConsts) (N : Nat) (s : Statics)
    (req : USB_Request_Header_t) (x : CtlInputs) (hreq : req.bRequest = u.HID_REQ_GetReport) :
    (req.bmRequestType = (u.REQDIR_DEVICETOHOST ||| u.REQTYPE_CLASS ||| u.REQREC_INTERFACE) →
      (∀ b, EVENT_USB_Device_ControlRequest u c N s req x =
        ((GetNextReport c N s b).2,
          [HwEvent.ClearSETUP, HwEvent.Write_Control_Stream_LE (GetNextReport c N s b).1,
            HwEvent.ClearOUT])) ∧
      (∀ b, controlReports (EVENT_USB_Device_ControlRequest u c N s req x).2 =
        [(GetNextReport c N s b).1]) ∧
      (∀ y : HidInputs, y.USB_DeviceState = u.DEVICE_STATE_Configured → y.IsINReady = true →
        (HID_Task u c N s y).1 = (EVENT_USB_Device_ControlRequest u c N s req x).1 ∧
        inReports (HID_Task u c N s y).2 =
          controlReports (EVENT_USB_Device_ControlRequest u c N s req x).2)) ∧
    (req.bmRequestType ≠ (u.REQDIR_DEVICETOHOST ||| u.REQTYPE_CLASS ||| u.REQREC_INTERFACE) →
      EVENT_USB_Device_ControlRequest u c N s req x = (s, [])) := by
  constructor
  · intro ht
    have e : ∀ b, EVENT_USB_Device_ControlRequest u c N s req x =
        ((GetNextReport c N s b).2,
          [HwEvent.ClearSETUP, HwEvent.Write_Control_Stream_LE (GetNextReport c N s b).1,
            HwEvent.ClearOUT]) := by
      intro b
      rw [GetNextReport_buffer c N s b x.JoystickInputData]
      simp [EVENT_USB_Device_ControlRequest, hreq, ht]
    refine ⟨e, ?_, ?_⟩
    · intro b
      rw [e b]
      simp [controlReports]
    · intro y hy hr
      rw [e zeroReport, HID_Task_statics, HID_Task_inReports]
      simp [hy, hr, controlReports]
  · intro ht
    simp [EVENT_USB_Device_ControlRequest, hreq, ht]

/-- C9, at the LUFA and Pokken-pad constants: a well-typed GetReport request
(`bmRequestType = 0xA1`) from the fresh state. -/
theorem C9_get_report_witness :
    ({ bmRequestType := 161, bRequest := 1 } : USB_Request_Header_t).bRequest =
      lufa.HID_REQ_GetReport ∧
    ({ bmRequestType := 161, bRequest := 1 } : USB_Request_Header_t).bmRequestType =
      (lufa.REQDIR_DEVICETOHOST ||| lufa.REQTYPE_CLASS ||| lufa.REQREC_INTERFACE) ∧
    controlReports (EVENT_USB_Device_ControlRequest lufa pokken LOOP_LENGTH fresh
        { bmRequestType := 161, bRequest := 1 } ctlInput).2 =
      [(GetNextReport pokken LOOP_LENGTH fresh zeroReport).1] :=
  ⟨rfl, by decide,
    ((C9_get_report lufa pokken LOOP_LENGTH fresh { bmRequestType := 161, bRequest := 1 }
      ctlInput rfl).1 (by decide)).2.1 zeroReport⟩

/-- C10 (SetReport changes no state).  The request codes `HID_REQ_GetReport` and
`HID_REQ_SetReport` being distinct (they label two cases of one `switch`), a
control request whose `bRequest` is `HID_REQ_SetReport` (whatever its
`bmRequestType` and payload), or is neither of the two codes, leaves the
statics untouched and writes no report to the control pipe; hence every later
call of `GetNextReport` returns what it would have returned had the request
never arrived. -/
theorem C10_set_report (u : UsbConsts) (c : JoystickConsts) (N : Nat) (s : Statics)
    (req : USB_Request_Header_t) (x : CtlInputs)
    (hd : u.HID_REQ_GetReport ≠ u.HID_REQ_SetReport)
    (hreq : req.bRequest = u.HID_REQ_SetReport ∨
      (req.bRequest ≠ u.HID_REQ_GetReport ∧ req.bRequest ≠ u.HID_REQ_SetReport)) :
    (EVENT_USB_Device_ControlRequest u c N s req x).1 = s ∧
    controlReports (EVENT_USB_Device_ControlRequest u c N s req x).2 = [] ∧
    (∀ bufs n,
      reportOfCall c N bufs (EVENT_USB_Device_ControlRequest u c N s req x).1 n =
        reportOfCall c N bufs s n) ∧
    (∀ bufs n,
      staticsAfter c N bufs (EVENT_USB_Device_ControlRequest u c N s req x).1 n =
        staticsAfter c N bufs s n) := by
  have hg : req.bRequest ≠ u.HID_REQ_GetReport := by
    rcases hreq with h | h
    · rw [h]; exact fun e => hd e.symm
    · exact h.1
  have e1 : (EVENT_USB_Device_ControlRequest u c N s req x).1 = s := by
    unfold EVENT_USB_Device_ControlRequest
    rw [if_neg hg]
    split_ifs <;> rfl
  have e2 : controlReports (EVENT_USB_Device_ControlRequest u c N s req x).2 = [] := by
    unfold EVENT_USB_Device_ControlRequest
    rw [if_neg hg]
    split_ifs <;> simp [controlReports]
  refine ⟨e1, e2, ?_, ?_⟩
  · intro bufs n; rw [e1]
  · intro bufs n; rw [e1]

/-- C10, at the LUFA and Pokken-pad constants: a SetReport request with the
host-to-device class/interface type (`0x21`), from the fresh state. -/
theorem C10_set_report_witness :
    lufa.HID_REQ_GetReport ≠ lufa.HID_REQ_SetReport ∧
    ({ bmRequestType := 33, bRequest := 9 } : USB_Request_Header_t).bRequest =
      lufa.HID_REQ_SetReport ∧
    (EVENT_USB_Device_ControlRequest lufa pokken LOOP_LENGTH fresh
        { bmRequestType := 33, bRequest := 9 } ctlInput).1 = fresh :=
  ⟨by decide, rfl,
    (C10_set_report lufa pokken LOOP_LENGTH fresh { bmRequestType := 33, bRequest := 9 }
      ctlInput (by decide) (Or.inl rfl)).1⟩

/-! ## Determinism -/

/-- The statics after `n` calls do not depend on what the callers' buffers held. -/
theorem staticsAfter_buffers (c : JoystickConsts) (N : Nat)
    (bufs bufs' : Nat → USB_JoystickReport_Input_t) (s : Statics) (n : Nat) :
    staticsAfter c N bufs s n = staticsAfter c N bufs' s n := by
  induction n with
  | zero => rfl
  | succ n ih =>
    rw [staticsAfter, staticsAfter, ih, GetNextReport_buffer c N _ (bufs n) (bufs' n)]

/-- The report of call number `n` does not depend on what the callers' buffers
held. -/
theorem reportOfCall_buffers (c : JoystickConsts) (N : Nat)
    (bufs bufs' : Nat → USB_JoystickReport_Input_t) (s : Statics) (n : Nat) :
    reportOfCall c N bufs s n = reportOfCall c N bufs' s n := by
  rw [reportOfCall, reportOfCall, staticsAfter_buffers c N bufs bufs' s n,
    GetNextReport_buffer c N _ (bufs n) (bufs' n)]

/-- C11 (determinism, no uninitialised reads).  The report `GetNextReport` leaves
in the caller's buffer and the statics it leaves are the same whatever the
buffer held before the call.  Hence in two runs from the same statics, with
arbitrary and different buffer contents at every call, call number `n` returns
the same report and leaves the same statics for every `n`, and the two
sequences of the first `n` reports are equal.  The same holds for the report
`HID_Task` writes from its uninitialised local. -/
theorem C11_determinism (u : UsbConsts) (c : JoystickConsts) (N : Nat) (s : Statics)
    (b b' : USB_JoystickReport_Input_t) (bufs bufs' : Nat → USB_JoystickReport_Input_t)
    (n : Nat) (x : HidInputs) :
    GetNextReport c N s b = GetNextReport c N s b' ∧
    reportOfCall c N bufs s n = reportOfCall c N bufs' s n ∧
    staticsAfter c N bufs s n = staticsAfter c N bufs' s n ∧
    (List.range n).map (reportOfCall c N bufs s) =
      (List.range n).map (reportOfCall c N bufs' s) ∧
    HID_Task u c N s { x with JoystickInputData := b } =
      HID_Task u c N s { x with JoystickInputData := b' } := by
  refine ⟨GetNextReport_buffer c N s b b', reportOfCall_buffers c N bufs bufs' s n,
    staticsAfter_buffers c N bufs bufs' s n, ?_, ?_⟩
  · exact List.map_congr_left (fun m _ => reportOfCall_buffers c N bufs bufs' s m)
  · simp only [HID_Task]
    rw [GetNextReport_buffer c N s b b']

/-! ## The cached report and the decisions -/

/-- C18 (the cached report is not used in decision logic).  For two statics that
agree on `state`, `i` and the hold counter `j` and differ arbitrarily in
`last_report` (and for arbitrary buffers), `GetNextReport` leaves equal `state`,
`i` and `j`; if the hold counter is 0 it also returns the same report and
leaves the same `last_report` in both; if the hold counter is nonzero each call
returns its own cached report verbatim. -/
theorem C18_cache_not_in_decisions (c : JoystickConsts) (N : Nat) (s s' : Statics)
    (b b' : USB_JoystickReport_Input_t)
    (hst : s.state = s'.state) (hi : s.i = s'.i) (hj : s.j = s'.j) :
    (GetNextReport c N s b).2.state = (GetNextReport c N s' b').2.state ∧
    (GetNextReport c N s b).2.i = (GetNextReport c N s' b').2.i ∧
    (GetNextReport c N s b).2.j = (GetNextReport c N s' b').2.j ∧
    (s.j = 0 →
      (GetNextReport c N s b).1 = (GetNextReport c N s' b').1 ∧
      (GetNextReport c N s b).2.last_report = (GetNextReport c N s' b').2.last_report) ∧
    (s.j ≠ 0 →
      (GetNextReport c N s b).1 = s.last_report ∧
      (GetNextReport c N s' b').1 = s'.last_report) := by
  have hp : s.phaseStep = s'.phaseStep := by simp [Statics.phaseStep, hst, hi]
  by_cases h0 : s.j = 0
  · have h0' : s'.j = 0 := hj ▸ h0
    rw [GetNextReport_fire c N s b h0, GetNextReport_fire c N s' b' h0', hp]
    simp [h0]
  · have h0' : s'.j ≠ 0 := hj ▸ h0
    rw [GetNextReport_held c N s b h0, GetNextReport_held c N s' b' h0']
    exact ⟨hst, hi, by simp only [hj], fun h => absurd h h0, fun _ => ⟨rfl, rfl⟩⟩

/-- C18, at the Pokken-pad constants: two LOOP states at step 24 with hold counter
0, one caching the zero report and one the neutral report. -/
theorem C18_cache_not_in_decisions_witness :
    (GetNextReport pokken LOOP_LENGTH
        { last_report := zeroReport, i := 24, j := 0, state := LOOP } zeroReport).2.i =
      (GetNextReport pokken LOOP_LENGTH
        { last_report := neutral pokken, i := 24, j := 0, state := LOOP }
        (neutral pokken)).2.i :=
  (C18_cache_not_in_decisions pokken LOOP_LENGTH
    { last_report := zeroReport, i := 24, j := 0, state := LOOP }
    { last_report := neutral pokken, i := 24, j := 0, state := LOOP }
    zeroReport (neutral pokken) rfl rfl rfl).2.1

/-! ## The closed form of the whole output sequence -/

/-- The report of an automaton advance on the trajectory from the fresh state is
the report of the closed form. -/
theorem advanceReport_fresh (c : JoystickConsts) (hc : c.WellFormed) (k : Nat) :
    advanceReport c LOOP_LENGTH (advances c LOOP_LENGTH fresh.phaseStep k) =
      closedFormReport c k := by
  rw [advances_fresh, closedFormReport]
  by_cases h : k ≤ 100
  · rw [if_pos h, if_pos h, syncReport_wf c hc]
  · rw [if_neg h, if_neg h, loopReport_wf c hc]

/-- In the run from the fresh state, call number `n` returns the report of the
closed form at `n / 5`. -/
theorem reportOfCall_fresh (c : JoystickConsts) (hc : c.WellFormed)
    (bufs : Nat → USB_JoystickReport_Input_t) (n : Nat) :
    reportOfCall c LOOP_LENGTH bufs fresh n = closedFormReport c (n / 5) := by
  rw [reportOfCall_gate c LOOP_LENGTH bufs fresh rfl, advanceReport_fresh c hc]

/-- In the run from the fresh state, the phase and step after `n` calls. -/
theorem phaseStep_fresh (c : JoystickConsts) (bufs : Nat → USB_JoystickReport_Input_t)
    (n : Nat) :
    (staticsAfter c LOOP_LENGTH bufs fresh n).phaseStep =
      if (n + 4) / 5 ≤ 100 then (SYNC_CONTROLLER, (n + 4) / 5)
      else (LOOP, ((n + 4) / 5 - 101) % 30) := by
  rw [phaseStep_gate c LOOP_LENGTH bufs fresh rfl, advances_fresh]

/-- In a run from a state with hold counter 0, the hold counter after `n` calls. -/
theorem hold_gate (c : JoystickConsts) (N : Nat) (bufs : Nat → USB_JoystickReport_Input_t)
    (s : Statics) (h : s.j = 0) (n : Nat) :
    (staticsAfter c N bufs s n).j = (5 - n % 5) % 5 := by
  rw [staticsAfter_gate c N bufs s h n]

/-- C12 (closed form of the whole output sequence).  In the run from the fresh
state, for every `n` the report returned by call number `n` (counted from 0) is
`R (n div 5)`, with `R` the closed form `closedFormReport`; and after that call
the hold counter is `4 - (n mod 5)` and `(state, i)` is `(SYNC, n div 5 + 1)` if
`n div 5 < 100` and `(LOOP, (n div 5 - 100) mod 30)` otherwise. -/
theorem C12_closed_form (c : JoystickConsts) (hc : c.WellFormed)
    (bufs : Nat → USB_JoystickReport_Input_t) (n : Nat) :
    reportOfCall c LOOP_LENGTH bufs fresh n = closedFormReport c (n / 5) ∧
    (staticsAfter c LOOP_LENGTH bufs fresh (n + 1)).j = closedFormHold n ∧
    (staticsAfter c LOOP_LENGTH bufs fresh (n + 1)).phaseStep = closedFormPhaseStep n := by
  refine ⟨reportOfCall_fresh c hc bufs n, ?_, ?_⟩
  · rw [hold_gate c LOOP_LENGTH bufs fresh rfl, closedFormHold]
    omega
  · rw [phaseStep_fresh, closedFormPhaseStep]
    have e : (n + 1 + 4) / 5 = n / 5 + 1 := by omega
    rw [e]
    by_cases h : n / 5 < 100
    · rw [if_pos h, if_pos (by omega)]
    · rw [if_neg h, if_neg (by omega)]
      have : n / 5 + 1 - 101 = n / 5 - 100 := by omega
      rw [this]

/-- C12, at the Pokken-pad constants and call number 627 (advance 125, LOOP step
24). -/
theorem C12_closed_form_witness :
    pokken.WellFormed ∧
    reportOfCall pokken LOOP_LENGTH zeroBufs fresh 627 = closedFormReport pokken (627 / 5) :=
  ⟨by decide, (C12_closed_form pokken (by decide) zeroBufs 627).1⟩

/-! ## LOOP is never left -/

theorem GetNextReport_state_loop (c : JoystickConsts) (N : Nat) (s : Statics)
    (b : USB_JoystickReport_Input_t) (h : s.state = LOOP) :
    (GetNextReport c N s b).2.state = LOOP := by
  by_cases h0 : s.j = 0
  · rw [GetNextReport_fire c N s b h0]
    simp only [Statics.phaseStep, h, advance_loop]
    split_ifs <;> rfl
  · rw [GetNextReport_held c N s b h0]
    exact h

theorem staticsAfter_state_loop (c : JoystickConsts) (N : Nat)
    (bufs : Nat → USB_JoystickReport_Input_t) (s : Statics) (n m : Nat) (hnm : n ≤ m)
    (h : (staticsAfter c N bufs s n).state = LOOP) :
    (staticsAfter c N bufs s m).state = LOOP := by
  induction m, hnm using Nat.le_induction with
  | base => exact h
  | succ m _ ih =>
    rw [staticsAfter]
    exact GetNextReport_state_loop c N _ _ ih

/-- The closed-form report carries `SWITCH_L | SWITCH_R` exactly at advances 20
and 50. -/
theorem closedFormReport_LR (c : JoystickConsts) (hc : c.WellFormed) (k : Nat) :
    (closedFormReport c k).Button = c.SWITCH_L ||| c.SWITCH_R ↔ k = 20 ∨ k = 50 := by
  obtain ⟨-, hLR0, hLRA, hLRB, -⟩ := wf_masks c hc
  constructor
  · intro h
    by_contra hk
    simp only [closedFormReport, if_neg hk] at h
    split_ifs at h
    all_goals first
      | exact hLR0 h.symm
      | exact hLRA h.symm
      | exact hLRB h.symm
  · intro hk
    have h100 : k ≤ 100 := by omega
    simp [closedFormReport, h100, hk]

/-- C13 (LOOP is never left).  A call of `GetNextReport` made with `state = LOOP`
(any `i`, any hold counter, any cached report, any buffer) leaves
`state = LOOP`; so in every run, once `state = LOOP` holds after some call it
holds after every later call.  In the run from the fresh state the report
`SWITCH_L | SWITCH_R` is returned only by the calls of advances 20 and 50, and
no two advances see the same SYNC step, so each step of the handshake is
emitted at most once. -/
theorem C13_loop_never_left (c : JoystickConsts) (hc : c.WellFormed) (N : Nat)
    (bufs : Nat → USB_JoystickReport_Input_t) (s : Statics)
    (b : USB_JoystickReport_Input_t) :
    (s.state = LOOP → (GetNextReport c N s b).2.state = LOOP) ∧
    (∀ n m, n ≤ m → (staticsAfter c N bufs s n).state = LOOP →
      (staticsAfter c N bufs s m).state = LOOP) ∧
    (∀ n, (reportOfCall c LOOP_LENGTH bufs fresh n).Button = c.SWITCH_L ||| c.SWITCH_R ↔
      n / 5 = 20 ∨ n / 5 = 50) ∧
    (∀ k k', (staticsAfter c LOOP_LENGTH bufs fresh (5 * k)).state = SYNC_CONTROLLER →
      (staticsAfter c LOOP_LENGTH bufs fresh (5 * k)).phaseStep =
        (staticsAfter c LOOP_LENGTH bufs fresh (5 * k')).phaseStep → k = k') := by
  refine ⟨GetNextReport_state_loop c N s b, ?_, ?_, ?_⟩
  · intro n m hnm h
    exact staticsAfter_state_loop c N bufs s n m hnm h
  · intro n
    rw [reportOfCall_fresh c hc, closedFormReport_LR c hc]
  · intro k k' hst hps
    have e : ∀ q, (5 * q + 4) / 5 = q := by intro q; omega
    have h1 := phaseStep_fresh c bufs (5 * k)
    have h2 := phaseStep_fresh c bufs (5 * k')
    rw [e] at h1 h2
    have hk : k ≤ 100 := by
      by_contra hk
      rw [if_neg hk] at h1
      have := congrArg Prod.fst h1
      simp only [Statics.phaseStep] at this
      rw [hst] at this
      exact absurd this (by decide)
    rw [hps] at h1
    rw [if_pos hk] at h1
    rw [h1] at h2
    by_cases hk' : k' ≤ 100
    · rw [if_pos hk'] at h2
      exact congrArg Prod.snd h2
    · rw [if_neg hk'] at h2
      have h3 : SYNC_CONTROLLER = LOOP := congrArg Prod.fst h2
      exact absurd h3 (by decide)

/-- C13, at the Pokken-pad constants: a LOOP state at the wrap step 29 with hold
counter 0. -/
theorem C13_loop_never_left_witness :
    pokken.WellFormed ∧
    ({ last_report := zeroReport, i := 29, j := 0, state := LOOP } : Statics).state = LOOP ∧
    (GetNextReport pokken LOOP_LENGTH
      { last_report := zeroReport, i := 29, j := 0, state := LOOP } zeroReport).2.state = LOOP :=
  ⟨by decide, rfl,
    (C13_loop_never_left pokken (by decide) LOOP_LENGTH zeroBufs
      { last_report := zeroReport, i := 29, j := 0, state := LOOP } zeroReport).1 rfl⟩

/-! ## Bounds on the reachable statics -/

/-- In a run from a state with hold counter 0, the cached report after `n ≥ 1`
calls is the report of call number `5 * ((n - 1) / 5)`. -/
theorem last_report_gate (c : JoystickConsts) (N : Nat)
    (bufs : Nat → USB_JoystickReport_Input_t) (s : Statics) (h : s.j = 0) (n : Nat)
    (hn : n ≠ 0) :
    (staticsAfter c N bufs s n).last_report =
      reportOfCall c N bufs s (5 * ((n - 1) / 5)) := by
  rw [staticsAfter_gate c N bufs s h n, reportOfCall_gate c N bufs s h]
  have e : 5 * ((n - 1) / 5) / 5 = (n - 1) / 5 := by omega
  simp only [if_neg hn, e]

/-- C15 (bounds on the reachable statics).  The statics after any number `n` of
calls of `GetNextReport` from the fresh state satisfy: the hold counter is at
most 4 (the 8-bit wrap of `j--` to 255 is never stored); `state` is
`SYNC_CONTROLLER` or `LOOP`; in SYNC `i ≤ 100`; in LOOP `i < LOOP_LENGTH`;
whenever the hold counter is nonzero the cached `last_report` is the report
returned by the most recent automaton advance (call number
`5 * ((n - 1) / 5)`, the last call that saw hold counter 0); and
`i + 1 < 65536`, so the 16-bit `i++` never wraps. -/
theorem C15_reachable_bounds (c : JoystickConsts) (bufs : Nat → USB_JoystickReport_Input_t)
    (n : Nat) :
    (staticsAfter c LOOP_LENGTH bufs fresh n).j ≤ 4 ∧
    ((staticsAfter c LOOP_LENGTH bufs fresh n).state = SYNC_CONTROLLER ∨
      (staticsAfter c LOOP_LENGTH bufs fresh n).state = LOOP) ∧
    ((staticsAfter c LOOP_LENGTH bufs fresh n).state = SYNC_CONTROLLER →
      (staticsAfter c LOOP_LENGTH bufs fresh n).i ≤ 100) ∧
    ((staticsAfter c LOOP_LENGTH bufs fresh n).state = LOOP →
      (staticsAfter c LOOP_LENGTH bufs fresh n).i < LOOP_LENGTH) ∧
    ((staticsAfter c LOOP_LENGTH bufs fresh n).j ≠ 0 →
      (staticsAfter c LOOP_LENGTH bufs fresh n).last_report =
        reportOfCall c LOOP_LENGTH bufs fresh (5 * ((n - 1) / 5)) ∧
      5 * ((n - 1) / 5) < n ∧
      (staticsAfter c LOOP_LENGTH bufs fresh (5 * ((n - 1) / 5))).j = 0 ∧
      (∀ m, 5 * ((n - 1) / 5) < m → m < n →
        (staticsAfter c LOOP_LENGTH bufs fresh m).j ≠ 0)) ∧
    (staticsAfter c LOOP_LENGTH bufs fresh n).i + 1 < 65536 := by
  have hf : fresh.j = 0 := rfl
  have hj := hold_gate c LOOP_LENGTH bufs fresh hf n
  have hps := phaseStep_fresh c bufs n
  have hst : (staticsAfter c LOOP_LENGTH bufs fresh n).state =
      (if (n + 4) / 5 ≤ 100 then (SYNC_CONTROLLER, (n + 4) / 5)
        else (LOOP, ((n + 4) / 5 - 101) % 30)).1 := congrArg Prod.fst hps
  have hi : (staticsAfter c LOOP_LENGTH bufs fresh n).i =
      (if (n + 4) / 5 ≤ 100 then (SYNC_CONTROLLER, (n + 4) / 5)
        else (LOOP, ((n + 4) / 5 - 101) % 30)).2 := congrArg Prod.snd hps
  have hne : SYNC_CONTROLLER ≠ LOOP := by decide
  refine ⟨by omega, ?_, ?_, ?_, ?_, ?_⟩
  · rw [hst]
    split_ifs
    · exact Or.inl rfl
    · exact Or.inr rfl
  · rw [hst, hi]
    split_ifs with h
    · intro _; exact h
    · intro h'; exact absurd h'.symm hne
  · rw [hst, hi]
    split_ifs with h
    · intro h'; exact absurd h' hne
    · intro _
      show ((n + 4) / 5 - 101) % 30 < 30
      omega
  · intro hj0
    have hn : n ≠ 0 := by
      rintro rfl
      exact hj0 rfl
    refine ⟨last_report_gate c LOOP_LENGTH bufs fresh hf n hn, by omega, ?_, ?_⟩
    · rw [hold_zero_iff c LOOP_LENGTH bufs fresh hf]
      omega
    · intro m h1 h2
      rw [Ne, hold_zero_iff c LOOP_LENGTH bufs fresh hf]
      omega
  · rw [hi]
    split_ifs with h
    · show (n + 4) / 5 + 1 < 65536
      omega
    · show ((n + 4) / 5 - 101) % 30 + 1 < 65536
      omega

/-- C15, at the Pokken-pad constants, after 3 calls from the fresh state (hold
counter 2, cached report that of call 0). -/
theorem C15_reachable_bounds_witness :
    (staticsAfter pokken LOOP_LENGTH zeroBufs fresh 3).j ≠ 0 ∧
    (staticsAfter pokken LOOP_LENGTH zeroBufs fresh 3).last_report =
      reportOfCall pokken LOOP_LENGTH zeroBufs fresh (5 * ((3 - 1) / 5)) :=
  ⟨by decide, ((C15_reachable_bounds pokken zeroBufs 3).2.2.2.2.1 (by decide)).1⟩

/-! ## The five reports -/

theorem or_and_eq_zero (a b m : Nat) (ha : a &&& m = 0) (hb : b &&& m = 0) :
    (a ||| b) &&& m = 0 := by
  apply Nat.eq_of_testBit_eq
  intro k
  have ha' : (a &&& m).testBit k = false := by rw [ha]; exact Nat.zero_testBit k
  have hb' : (b &&& m).testBit k = false := by rw [hb]; exact Nat.zero_testBit k
  rw [Nat.testBit_and] at ha' hb'
  rw [Nat.testBit_and, Nat.testBit_or, Nat.zero_testBit]
  cases h1 : a.testBit k <;> cases h2 : b.testBit k <;> cases h3 : m.testBit k <;> simp_all

theorem closedFormReport_five (c : JoystickConsts) (k : Nat) :
    closedFormReport c k = neutral c ∨
    closedFormReport c k = { neutral c with Button := c.SWITCH_L ||| c.SWITCH_R } ∨
    closedFormReport c k = { neutral c with Button := c.SWITCH_A } ∨
    closedFormReport c k = { neutral c with Button := c.SWITCH_B } ∨
    closedFormReport c k = { neutral c with HAT := c.HAT_BOTTOM } := by
  simp only [closedFormReport]
  split_ifs <;> simp

/-- C17 (rule effects are mutually exclusive, N = 30).  Every report returned by
a call of `GetNextReport` in the run from the fresh state is one of five
values: neutral; neutral but for `Button = SWITCH_L | SWITCH_R`; neutral but
for `Button = SWITCH_A`; neutral but for `Button = SWITCH_B`; neutral but for
`HAT = HAT_BOTTOM`.  The five values are pairwise different and each one is
returned by some call.  Hence a report with a non-centred hat has no button,
a report that asserts one of `SWITCH_A`, `SWITCH_B`, `SWITCH_L | SWITCH_R`
carries exactly that mask, and no bit outside the four masks is ever set. -/
theorem C17_five_reports (c : JoystickConsts) (hc : c.WellFormed)
    (bufs : Nat → USB_JoystickReport_Input_t) (n : Nat) :
    (reportOfCall c LOOP_LENGTH bufs fresh n = neutral c ∨
      reportOfCall c LOOP_LENGTH bufs fresh n =
        { neutral c with Button := c.SWITCH_L ||| c.SWITCH_R } ∨
      reportOfCall c LOOP_LENGTH bufs fresh n = { neutral c with Button := c.SWITCH_A } ∨
      reportOfCall c LOOP_LENGTH bufs fresh n = { neutral c with Button := c.SWITCH_B } ∨
      reportOfCall c LOOP_LENGTH bufs fresh n = { neutral c with HAT := c.HAT_BOTTOM }) ∧
    [neutral c, { neutral c with Button := c.SWITCH_L ||| c.SWITCH_R },
      { neutral c with Button := c.SWITCH_A }, { neutral c with Button := c.SWITCH_B },
      { neutral c with HAT := c.HAT_BOTTOM }].Nodup ∧
    (reportOfCall c LOOP_LENGTH bufs fresh 0 = neutral c ∧
      reportOfCall c LOOP_LENGTH bufs fresh 100 =
        { neutral c with Button := c.SWITCH_L ||| c.SWITCH_R } ∧
      reportOfCall c LOOP_LENGTH bufs fresh 400 = { neutral c with Button := c.SWITCH_A } ∧
      reportOfCall c LOOP_LENGTH bufs fresh 625 = { neutral c with Button := c.SWITCH_B } ∧
      reportOfCall c LOOP_LENGTH bufs fresh 585 = { neutral c with HAT := c.HAT_BOTTOM }) ∧
    ((reportOfCall c LOOP_LENGTH bufs fresh n).HAT = c.HAT_CENTER ∨
      (reportOfCall c LOOP_LENGTH bufs fresh n).Button = 0) ∧
    ((reportOfCall c LOOP_LENGTH bufs fresh n).Button &&& c.SWITCH_A ≠ 0 →
      (reportOfCall c LOOP_LENGTH bufs fresh n).Button = c.SWITCH_A) ∧
    ((reportOfCall c LOOP_LENGTH bufs fresh n).Button &&& c.SWITCH_B ≠ 0 →
      (reportOfCall c LOOP_LENGTH bufs fresh n).Button = c.SWITCH_B) ∧
    ((reportOfCall c LOOP_LENGTH bufs fresh n).Button &&& (c.SWITCH_L ||| c.SWITCH_R) ≠ 0 →
      (reportOfCall c LOOP_LENGTH bufs fresh n).Button = c.SWITCH_L ||| c.SWITCH_R) ∧
    (∀ m, c.SWITCH_A &&& m = 0 → c.SWITCH_B &&& m = 0 → c.SWITCH_L &&& m = 0 →
      c.SWITCH_R &&& m = 0 → (reportOfCall c LOOP_LENGTH bufs fresh n).Button &&& m = 0) := by
  obtain ⟨-, hLR0, hLRA, hLRB, hAB⟩ := wf_masks c hc
  have hc' := hc
  obtain ⟨-, ⟨hA0, hB0, -, -⟩, ⟨dAB, dAL, dAR, dBL, dBR, -⟩, -, -, hH⟩ := hc
  have dBA : c.SWITCH_B &&& c.SWITCH_A = 0 := by rw [Nat.and_comm]; exact dAB
  have dLRA : (c.SWITCH_L ||| c.SWITCH_R) &&& c.SWITCH_A = 0 :=
    or_and_eq_zero _ _ _ (by rw [Nat.and_comm]; exact dAL) (by rw [Nat.and_comm]; exact dAR)
  have dLRB : (c.SWITCH_L ||| c.SWITCH_R) &&& c.SWITCH_B = 0 :=
    or_and_eq_zero _ _ _ (by rw [Nat.and_comm]; exact dBL) (by rw [Nat.and_comm]; exact dBR)
  have dALR : c.SWITCH_A &&& (c.SWITCH_L ||| c.SWITCH_R) = 0 := by
    rw [Nat.and_comm]; exact dLRA
  have dBLR : c.SWITCH_B &&& (c.SWITCH_L ||| c.SWITCH_R) = 0 := by
    rw [Nat.and_comm]; exact dLRB
  have h5 := closedFormReport_five c (n / 5)
  rw [← reportOfCall_fresh c hc' bufs n] at h5
  refine ⟨h5, ?_, ?_, ?_, ?_, ?_, ?_, ?_⟩
  · simp [neutral, hLR0, hA0, hB0, hLRA, hLRB, hAB, hH, Ne.symm hLR0, Ne.symm hA0,
      Ne.symm hB0]
  · simp only [reportOfCall_fresh c hc' bufs, closedFormReport]
    simp
  · rcases h5 with h | h | h | h | h <;> rw [h] <;> simp [neutral]
  · rcases h5 with h | h | h | h | h <;> rw [h] <;> simp [neutral, dLRA, dBA]
  · rcases h5 with h | h | h | h | h <;> rw [h] <;> simp [neutral, dLRB, dAB]
  · rcases h5 with h | h | h | h | h <;> rw [h] <;> simp [neutral, dALR, dBLR]
  · intro m mA mB mL mR
    have mLR : (c.SWITCH_L ||| c.SWITCH_R) &&& m = 0 := or_and_eq_zero _ _ _ mL mR
    rcases h5 with h | h | h | h | h <;> rw [h] <;> simp [neutral, mA, mB, mLR]

/-- C17, at the Pokken-pad constants and call number 625 (LOOP step 24). -/
theorem C17_five_reports_witness :
    pokken.WellFormed ∧
    reportOfCall pokken LOOP_LENGTH zeroBufs fresh 625 =
      { neutral pokken with Button := pokken.SWITCH_B } :=
  ⟨by decide, (C17_five_reports pokken (by decide) zeroBufs 625).2.2.1.2.2.2.1⟩

/-! ## Periodicity of LOOP -/

/-- Runs compose: the statics after `m + n` calls are the statics `n` calls after
the statics after `m` calls. -/
theorem staticsAfter_add (c : JoystickConsts) (N : Nat)
    (bufs : Nat → USB_JoystickReport_Input_t) (s : Statics) (m n : Nat) :
    staticsAfter c N bufs s (m + n) =
      staticsAfter c N (fun k => bufs (m + k)) (staticsAfter c N bufs s m) n := by
  induction n with
  | zero => rfl
  | succ n ih =>
    rw [← Nat.add_assoc, staticsAfter, staticsAfter, ih]

/-- While the hold counter lasts, calls only count it down. -/
theorem staticsAfter_held (c : JoystickConsts) (N : Nat)
    (bufs : Nat → USB_JoystickReport_Input_t) (s : Statics) (h8 : s.j < 256) (m : Nat)
    (hm : m ≤ s.j) :
    staticsAfter c N bufs s m = { s with j := s.j - m } := by
  induction m with
  | zero => rfl
  | succ m ih =>
    rw [staticsAfter, ih (by omega), GetNextReport_held _ _ _ _ (by simp only; omega)]
    have : (s.j - m + 255) % 256 = s.j - (m + 1) := by omega
    simp only [this]

/-- After the held calls the run continues as a run from hold counter 0. -/
theorem staticsAfter_from_hold (c : JoystickConsts) (N : Nat)
    (bufs : Nat → USB_JoystickReport_Input_t) (s : Statics) (h8 : s.j < 256) (n : Nat) :
    staticsAfter c N bufs s (s.j + n) =
      staticsAfter c N (fun k => bufs (s.j + k)) { s with j := 0 } n := by
  rw [staticsAfter_add, staticsAfter_held c N bufs s h8 s.j (Nat.le_refl _), Nat.sub_self]

theorem reportOfCall_from_hold (c : JoystickConsts) (N : Nat)
    (bufs : Nat → USB_JoystickReport_Input_t) (s : Statics) (h8 : s.j < 256) (n : Nat) :
    reportOfCall c N bufs s (s.j + n) =
      reportOfCall c N (fun k => bufs (s.j + k)) { s with j := 0 } n := by
  rw [reportOfCall, reportOfCall, staticsAfter_from_hold c N bufs s h8 n]

/-- C14 (LOOP is periodic with period 30 advances).  Take any statics with
`state = LOOP`, `i < 30` and a hold counter `j ≤ 4`.  The automaton advances of
the run are the calls number `j + 5 * k`; advance `k` sees hold counter 0 and
step `(i + k) mod 30`.  After 150 calls (30 advances) `state`, `i` and the hold
counter are what they were at the start; the report of advance `k + 30` equals
the report of advance `k` for every `k`; and for `0 < m < 30` the step seen by
advance `m` differs from the starting step. -/
theorem C14_loop_period (c : JoystickConsts) (bufs : Nat → USB_JoystickReport_Input_t)
    (s : Statics) (hs : s.state = LOOP) (hi : s.i < 30) (hj : s.j ≤ 4) :
    (∀ k, (staticsAfter c LOOP_LENGTH bufs s (s.j + 5 * k)).j = 0 ∧
      (staticsAfter c LOOP_LENGTH bufs s (s.j + 5 * k)).phaseStep = (LOOP, (s.i + k) % 30)) ∧
    ((staticsAfter c LOOP_LENGTH bufs s 150).state = s.state ∧
      (staticsAfter c LOOP_LENGTH bufs s 150).i = s.i ∧
      (staticsAfter c LOOP_LENGTH bufs s 150).j = s.j) ∧
    (∀ k, reportOfCall c LOOP_LENGTH bufs s (s.j + 5 * (k + 30)) =
      reportOfCall c LOOP_LENGTH bufs s (s.j + 5 * k)) ∧
    (∀ m, 0 < m → m < 30 → (staticsAfter c LOOP_LENGTH bufs s (s.j + 5 * m)).i ≠ s.i) := by
  have h8 : s.j < 256 := by omega
  have h0 : ({ s with j := 0 } : Statics).j = 0 := rfl
  have hp : ({ s with j := 0 } : Statics).phaseStep = (LOOP, s.i) := by
    simp [Statics.phaseStep, hs]
  have e5 : ∀ k, (5 * k + 4) / 5 = k := by intro k; omega
  have hstep : ∀ k, (staticsAfter c LOOP_LENGTH bufs s (s.j + 5 * k)).phaseStep =
      (LOOP, (s.i + k) % 30) := by
    intro k
    rw [staticsAfter_from_hold c LOOP_LENGTH bufs s h8,
      phaseStep_gate c LOOP_LENGTH _ _ h0, hp, e5, advances_loop c s.i hi]
  refine ⟨?_, ?_, ?_, ?_⟩
  · intro k
    refine ⟨?_, hstep k⟩
    rw [staticsAfter_from_hold c LOOP_LENGTH bufs s h8, hold_zero_iff c LOOP_LENGTH _ _ h0]
    omega
  · have e150 : 150 = s.j + (150 - s.j) := by omega
    have hps : (staticsAfter c LOOP_LENGTH bufs s 150).phaseStep = (LOOP, s.i) := by
      rw [e150, staticsAfter_from_hold c LOOP_LENGTH bufs s h8,
        phaseStep_gate c LOOP_LENGTH _ _ h0, hp, advances_loop c s.i hi]
      have : (150 - s.j + 4) / 5 = 30 := by omega
      rw [this]
      have : (s.i + 30) % 30 = s.i := by omega
      rw [this]
    refine ⟨?_, ?_, ?_⟩
    · have h1 := congrArg Prod.fst hps
      simp only [Statics.phaseStep] at h1
      rw [hs, h1]
    · have h2 := congrArg Prod.snd hps
      simp only [Statics.phaseStep] at h2
      rw [h2]
    · rw [e150, staticsAfter_from_hold c LOOP_LENGTH bufs s h8,
        hold_gate c LOOP_LENGTH _ _ h0]
      omega
  · intro k
    rw [reportOfCall_from_hold c LOOP_LENGTH bufs s h8,
      reportOfCall_from_hold c LOOP_LENGTH bufs s h8,
      reportOfCall_gate c LOOP_LENGTH _ _ h0, reportOfCall_gate c LOOP_LENGTH _ _ h0, hp,
      advances_loop c s.i hi, advances_loop c s.i hi]
    have e1 : 5 * (k + 30) / 5 = k + 30 := by omega
    have e2 : 5 * k / 5 = k := by omega
    have e3 : (s.i + (k + 30)) % 30 = (s.i + k) % 30 := by omega
    rw [e1, e2, e3]
  · intro m hm0 hm30
    have h := congrArg Prod.snd (hstep m)
    simp only [Statics.phaseStep] at h
    rw [h]
    omega

/-- C14, at the Pokken-pad constants: a LOOP state at step 7 with hold counter 3. -/
theorem C14_loop_period_witness :
    ({ last_report := neutral pokken, i := 7, j := 3, state := LOOP } : Statics).state = LOOP ∧
    (7 : Nat) < 30 ∧ (3 : Nat) ≤ 4 ∧
    (staticsAfter pokken LOOP_LENGTH zeroBufs
      { last_report := neutral pokken, i := 7, j := 3, state := LOOP } 150).i = 7 :=
  ⟨rfl, by decide, by decide,
    (C14_loop_period pokken zeroBufs
      { last_report := neutral pokken, i := 7, j := 3, state := LOOP } rfl (by decide)
      (by decide)).2.1.2.1⟩

/-! ## The LOOP rules for a general loop length -/

/-- The report of an automaton advance in LOOP for any loop length `N`, the
integer comparisons turned into natural-number ones. -/
theorem advanceReport_loop_general (c : JoystickConsts) (N i : Nat) :
    advanceReport c N (LOOP, i) =
      if i + 1 = N then clearReport c zeroReport
      else if i + 6 = N then orButton (clearReport c zeroReport) c.SWITCH_B
      else if i + 14 = N ∨ i + 12 = N ∨ i + 4 = N ∨ i + 2 = N then
        { clearReport c zeroReport with HAT := c.HAT_BOTTOM % 256 }
      else if i % 2 = 0 then orButton (clearReport c zeroReport) c.SWITCH_A
      else clearReport c zeroReport := by
  have e1 : ((i : Int) = (N : Int) - 1) = (i + 1 = N) := by
    apply propext; omega
  have e2 : ((i : Int) = (N : Int) - 6) = (i + 6 = N) := by
    apply propext; omega
  have e3 : ((i : Int) = (N : Int) - 14 ∨ (i : Int) = (N : Int) - 12 ∨
      (i : Int) = (N : Int) - 4 ∨ (i : Int) = (N : Int) - 2) =
      (i + 14 = N ∨ i + 12 = N ∨ i + 4 = N ∨ i + 2 = N) := by
    apply propext; omega
  have e4 : (i &&& 1 = 0) = (i % 2 = 0) := by rw [Nat.and_one_is_mod]
  simp only [advanceReport, switchState, LOOP, SYNC_CONTROLLER, e1, e2, e3, e4]
  split_ifs <;> simp_all

/-- The report of an automaton advance in LOOP for any loop length `N`, for
well-formed constants. -/
theorem loopReport_wf_general (c : JoystickConsts) (hc : c.WellFormed) (N i : Nat) :
    advanceReport c N (LOOP, i) =
      if i + 1 = N then neutral c
      else if i + 6 = N then { neutral c with Button := c.SWITCH_B }
      else if i + 14 = N ∨ i + 12 = N ∨ i + 4 = N ∨ i + 2 = N then
        { neutral c with HAT := c.HAT_BOTTOM }
      else if i % 2 = 0 then { neutral c with Button := c.SWITCH_A }
      else neutral c := by
  rw [advanceReport_loop_general, clearReport_wf c hc, orButton_neutral c _ hc.1.1,
    orButton_neutral c _ hc.1.2.1, Nat.mod_eq_of_lt hc.2.2.2.2.1]

/-- From LOOP step 0 with loop length `N ≤ 65536`, advance number `k < N` sees step
`k`. -/
theorem advances_loop_general (c : JoystickConsts) (N : Nat) (h16 : N ≤ 65536) (k : Nat)
    (hk : k < N) : advances c N (LOOP, 0) k = (LOOP, k) := by
  induction k with
  | zero => rfl
  | succ k ih =>
    rw [advances, ih (by omega), advance_loop]
    have h1 : ¬ ((k : Int) = (N : Int) - 1) := by omega
    have h2 : (k + 1) % 65536 = k + 1 := by omega
    rw [if_neg h1, h2]

/-- From LOOP step 0 with loop length `1 ≤ N ≤ 65536`, the `N`-th advance wraps the
step to 0. -/
theorem advances_loop_wrap (c : JoystickConsts) (N : Nat) (h1 : 1 ≤ N) (h16 : N ≤ 65536) :
    advances c N (LOOP, 0) N = (LOOP, 0) := by
  obtain ⟨m, rfl⟩ : ∃ m, N = m + 1 := ⟨N - 1, by omega⟩
  rw [advances, advances_loop_general c (m + 1) h16 m (by omega), advance_loop]
  have h : ((m : Int) = ((m + 1 : Nat) : Int) - 1) := by omega
  rw [if_pos h]

/-- From LOOP step 0 with loop length `1 ≤ N ≤ 65536`, every advance stays in LOOP
with a step below `N`. -/
theorem advances_loop_bound (c : JoystickConsts) (N : Nat) (h1 : 1 ≤ N) (h16 : N ≤ 65536)
    (k : Nat) :
    (advances c N (LOOP, 0) k).1 = LOOP ∧ (advances c N (LOOP, 0) k).2 < N := by
  induction k with
  | zero => exact ⟨rfl, h1⟩
  | succ k ih =>
    rcases h : advances c N (LOOP, 0) k with ⟨st, i⟩
    rw [h] at ih
    simp only at ih
    obtain ⟨ih1, ih2⟩ := ih
    subst ih1
    rw [advances, h, advance_loop]
    split_ifs with hw
    · exact ⟨rfl, h1⟩
    · refine ⟨rfl, ?_⟩
      show (i + 1) % 65536 < N
      omega

theorem card_filter_even (N : Nat) :
    ((Finset.range N).filter (fun k => k % 2 = 0)).card = (N + 1) / 2 := by
  induction N with
  | zero => rfl
  | succ n ih =>
    rw [Finset.range_succ, Finset.filter_insert]
    by_cases h : n % 2 = 0
    · rw [if_pos h, Finset.card_insert_of_not_mem (by simp), ih]
      omega
    · rw [if_neg h, ih]
      omega

theorem card_filter_eq_one (N a : Nat) (ha : a < N) :
    ((Finset.range N).filter (fun k => k = a)).card = 1 := by
  rw [Finset.filter_eq', if_pos (Finset.mem_range.mpr ha), Finset.card_singleton]

theorem card_filter_four (N : Nat) (h14 : 14 ≤ N) :
    ((Finset.range N).filter
      (fun k => k = N - 14 ∨ k = N - 12 ∨ k = N - 4 ∨ k = N - 2)).card = 4 := by
  have e : (Finset.range N).filter
      (fun k => k = N - 14 ∨ k = N - 12 ∨ k = N - 4 ∨ k = N - 2) =
      (({0, 2, 10, 12} : Finset Nat).image (fun t => N - 14 + t)) := by
    ext k
    simp only [Finset.mem_filter, Finset.mem_range, Finset.mem_image, Finset.mem_insert,
      Finset.mem_singleton, exists_eq_or_imp, exists_eq_left]
    omega
  rw [e, Finset.card_image_of_injective _ (fun a b h => by simpa using h)]
  rfl

theorem card_filter_rest (N : Nat) (h14 : 14 ≤ N) (hev : N % 2 = 0) :
    ((Finset.range N).filter
      (fun k => k % 2 = 0 ∧ k ≠ N - 14 ∧ k ≠ N - 12 ∧ k ≠ N - 6 ∧ k ≠ N - 4 ∧
        k ≠ N - 2)).card = N / 2 - 5 := by
  have hsplit := Finset.filter_card_add_filter_neg_card_eq_card
    (s := (Finset.range N).filter (fun k => k % 2 = 0))
    (fun k => k ≠ N - 14 ∧ k ≠ N - 12 ∧ k ≠ N - 6 ∧ k ≠ N - 4 ∧ k ≠ N - 2)
  rw [Finset.filter_filter, Finset.filter_filter, card_filter_even] at hsplit
  have e : (Finset.range N).filter
      (fun k => k % 2 = 0 ∧ ¬ (k ≠ N - 14 ∧ k ≠ N - 12 ∧ k ≠ N - 6 ∧ k ≠ N - 4 ∧
        k ≠ N - 2)) =
      (({0, 2, 8, 10, 12} : Finset Nat).image (fun t => N - 14 + t)) := by
    ext k
    simp only [Finset.mem_filter, Finset.mem_range, Finset.mem_image, Finset.mem_insert,
      Finset.mem_singleton, exists_eq_or_imp, exists_eq_left]
    omega
  rw [e, Finset.card_image_of_injective _ (fun a b h => by simpa using h)] at hsplit
  have h5 : ({0, 2, 8, 10, 12} : Finset Nat).card = 5 := rfl
  rw [h5] at hsplit
  omega

/-- C16 (LOOP rules for a general loop length).  Let the loop length be any even
`N` with `14 ≤ N ≤ 65536`, and take statics with `state = LOOP`, `i = 0` and
hold counter 0.  Advance number `k < N` (call `5 * k`) sees step `k`; the whole
run stays in LOOP with `i < N`; after the `N`-th advance the step is 0 again.
Within the cycle the report asserts `SWITCH_B` exactly at step `N - 6`, has
`HAT = HAT_BOTTOM` exactly at steps `N - 14`, `N - 12`, `N - 4`, `N - 2`, asserts
`SWITCH_A` exactly at the remaining even steps, and is neutral at every odd
step, the wrap step `N - 1` included.  Counted over the cycle: one step with
B, four with the hat down, `N / 2 - 5` with A. -/
theorem C16_loop_general (c : JoystickConsts) (hc : c.WellFormed) (N : Nat)
    (h14 : 14 ≤ N) (hev : N % 2 = 0) (h16 : N ≤ 65536)
    (bufs : Nat → USB_JoystickReport_Input_t) (s : Statics)
    (hs : s.state = LOOP) (hi : s.i = 0) (hj : s.j = 0) :
    (∀ k, k < N → (staticsAfter c N bufs s (5 * k)).j = 0 ∧
      (staticsAfter c N bufs s (5 * k)).phaseStep = (LOOP, k)) ∧
    (∀ n, (staticsAfter c N bufs s n).state = LOOP ∧ (staticsAfter c N bufs s n).i < N) ∧
    (staticsAfter c N bufs s (5 * (N - 1) + 1)).phaseStep = (LOOP, 0) ∧
    (∀ k, k < N →
      ((reportOfCall c N bufs s (5 * k)).Button &&& c.SWITCH_B ≠ 0 ↔ k = N - 6) ∧
      (k = N - 6 → reportOfCall c N bufs s (5 * k) = { neutral c with Button := c.SWITCH_B }) ∧
      ((reportOfCall c N bufs s (5 * k)).HAT = c.HAT_BOTTOM ↔
        k = N - 14 ∨ k = N - 12 ∨ k = N - 4 ∨ k = N - 2) ∧
      (k = N - 14 ∨ k = N - 12 ∨ k = N - 4 ∨ k = N - 2 →
        reportOfCall c N bufs s (5 * k) = { neutral c with HAT := c.HAT_BOTTOM }) ∧
      ((reportOfCall c N bufs s (5 * k)).Button &&& c.SWITCH_A ≠ 0 ↔
        k % 2 = 0 ∧ k ≠ N - 14 ∧ k ≠ N - 12 ∧ k ≠ N - 6 ∧ k ≠ N - 4 ∧ k ≠ N - 2) ∧
      (k % 2 = 0 ∧ k ≠ N - 14 ∧ k ≠ N - 12 ∧ k ≠ N - 6 ∧ k ≠ N - 4 ∧ k ≠ N - 2 →
        reportOfCall c N bufs s (5 * k) = { neutral c with Button := c.SWITCH_A }) ∧
      (k % 2 = 1 → reportOfCall c N bufs s (5 * k) = neutral c)) ∧
    ((Finset.range N).filter
      (fun k => (reportOfCall c N bufs s (5 * k)).Button &&& c.SWITCH_B ≠ 0)).card = 1 ∧
    ((Finset.range N).filter
      (fun k => (reportOfCall c N bufs s (5 * k)).HAT = c.HAT_BOTTOM)).card = 4 ∧
    ((Finset.range N).filter
      (fun k => (reportOfCall c N bufs s (5 * k)).Button &&& c.SWITCH_A ≠ 0)).card =
        N / 2 - 5 := by
  have hps := loopStart_phaseStep s hs hi
  have e5 : ∀ k, (5 * k + 4) / 5 = k := by intro k; omega
  have hr : ∀ k, k < N → reportOfCall c N bufs s (5 * k) =
      if k + 1 = N then neutral c
      else if k + 6 = N then { neutral c with Button := c.SWITCH_B }
      else if k + 14 = N ∨ k + 12 = N ∨ k + 4 = N ∨ k + 2 = N then
        { neutral c with HAT := c.HAT_BOTTOM }
      else if k % 2 = 0 then { neutral c with Button := c.SWITCH_A }
      else neutral c := by
    intro k hk
    rw [reportOfCall_gate c N bufs s hj, Nat.mul_div_cancel_left k (by norm_num), hps,
      advances_loop_general c N h16 k hk, loopReport_wf_general c hc]
  have hc' := hc
  obtain ⟨-, ⟨hA0, hB0, -, -⟩, ⟨dAB, -, -, -, -, -⟩, -, -, hH⟩ := hc'
  have dBA : c.SWITCH_B &&& c.SWITCH_A = 0 := by rw [Nat.and_comm]; exact dAB
  have hB : ∀ k, k < N →
      ((reportOfCall c N bufs s (5 * k)).Button &&& c.SWITCH_B ≠ 0 ↔ k = N - 6) := by
    intro k hk
    rw [hr k hk]
    split_ifs with h1 h2 h3 h4
    · simp [neutral]; omega
    · simp [hB0]; omega
    · simp [neutral]; omega
    · simp [dAB]; omega
    · simp [neutral]; omega
  have hHat : ∀ k, k < N →
      ((reportOfCall c N bufs s (5 * k)).HAT = c.HAT_BOTTOM ↔
        k = N - 14 ∨ k = N - 12 ∨ k = N - 4 ∨ k = N - 2) := by
    intro k hk
    rw [hr k hk]
    split_ifs with h1 h2 h3 h4
    · simp [neutral, hH]; omega
    · simp [neutral, hH]; omega
    · simp; omega
    · simp [neutral, hH]; omega
    · simp [neutral, hH]; omega
  have hA : ∀ k, k < N →
      ((reportOfCall c N bufs s (5 * k)).Button &&& c.SWITCH_A ≠ 0 ↔
        k % 2 = 0 ∧ k ≠ N - 14 ∧ k ≠ N - 12 ∧ k ≠ N - 6 ∧ k ≠ N - 4 ∧ k ≠ N - 2) := by
    intro k hk
    rw [hr k hk]
    split_ifs with h1 h2 h3 h4
    · simp [neutral]; omega
    · simp [dBA]; omega
    · simp [neutral]; omega
    · simp [hA0]; omega
    · simp [neutral]; omega
  refine ⟨?_, ?_, ?_, ?_, ?_, ?_, ?_⟩
  · intro k hk
    refine ⟨?_, ?_⟩
    · rw [hold_zero_iff c N bufs s hj]
      omega
    · rw [phaseStep_gate c N bufs s hj, e5, hps, advances_loop_general c N h16 k hk]
  · intro n
    have h := phaseStep_gate c N bufs s hj n
    rw [hps] at h
    have hb := advances_loop_bound c N (by omega) h16 ((n + 4) / 5)
    rw [← h] at hb
    exact hb
  · have e : (5 * (N - 1) + 1 + 4) / 5 = N := by omega
    rw [phaseStep_gate c N bufs s hj, e, hps, advances_loop_wrap c N (by omega) h16]
  · intro k hk
    refine ⟨hB k hk, ?_, hHat k hk, ?_, hA k hk, ?_, ?_⟩
    · intro h
      rw [hr k hk, if_neg (by omega), if_pos (by omega)]
    · intro h
      rw [hr k hk, if_neg (by omega), if_neg (by omega), if_pos (by omega)]
    · intro h
      rw [hr k hk, if_neg (by omega), if_neg (by omega), if_neg (by omega), if_pos h.1]
    · intro h
      rw [hr k hk]
      split_ifs with h1 h2 h3 h4
      · rfl
      · omega
      · omega
      · omega
      · rfl
  · rw [Finset.filter_congr (fun k hk => hB k (Finset.mem_range.mp hk))]
    exact card_filter_eq_one N (N - 6) (by omega)
  · rw [Finset.filter_congr (fun k hk => hHat k (Finset.mem_range.mp hk))]
    exact card_filter_four N h14
  · rw [Finset.filter_congr (fun k hk => hA k (Finset.mem_range.mp hk))]
    exact card_filter_rest N h14 hev

/-- C16, at the Pokken-pad constants and the smallest allowed loop length 14, from
the LOOP start: the step is 0 again after the 14th advance. -/
theorem C16_loop_general_witness :
    pokken.WellFormed ∧ 14 ≤ 14 ∧ 14 % 2 = 0 ∧ 14 ≤ 65536 ∧
    loopStart.state = LOOP ∧ loopStart.i = 0 ∧ loopStart.j = 0 ∧
    (staticsAfter pokken 14 zeroBufs loopStart (5 * (14 - 1) + 1)).phaseStep = (LOOP, 0) :=
  ⟨by decide, by decide, by decide, by decide, rfl, rfl, rfl,
    (C16_loop_general pokken (by decide) 14 (by decide) (by decide) (by decide) zeroBufs
      loopStart rfl rfl rfl).2.2.1⟩

end Joystick
